import Mathlib

/-!
# G233 SPI controller: register state machine

A shallow embedding of `hw/ssi/g233_spi.c` and `include/hw/ssi/g233_spi.h`.

* `uint32_t` / `uint8_t` registers are natural numbers; a value of those types is
  below `2 ^ 32` / `2 ^ 8` (`WF`), and C's `~m` on `uint32_t` is `not32 m`.
* The calls the device makes on its collaborators (`qemu_set_irq`, `ssi_transfer`,
  `qemu_log_mask`) are recorded, in program order, as a list of `Event`s returned next to
  the new state. The value `ssi_transfer` returns is an argument (`rx`) of the functions
  that may call it.
-/

namespace G233

/-! ## Constants of `g233_spi.h` -/

def G233_SPI_CR1 : Nat := 0x00
def G233_SPI_CR2 : Nat := 0x04
def G233_SPI_SR : Nat := 0x08
def G233_SPI_DR : Nat := 0x0C
def G233_SPI_CSCTRL : Nat := 0x10

def G233_SPI_CR1_SPE : Nat := 1 <<< 6
def G233_SPI_CR1_MSTR : Nat := 1 <<< 2

def G233_SPI_SR_RXNE : Nat := 1 <<< 0
def G233_SPI_SR_TXE : Nat := 1 <<< 1
def G233_SPI_SR_UDR : Nat := 1 <<< 2
def G233_SPI_SR_OVR : Nat := 1 <<< 3
def G233_SPI_SR_BSY : Nat := 1 <<< 7

def G233_SPI_CS0_ENABLE : Nat := 1 <<< 0
def G233_SPI_CS1_ENABLE : Nat := 1 <<< 1
def G233_SPI_CS0_ACTIVE : Nat := 1 <<< 4
def G233_SPI_CS1_ACTIVE : Nat := 1 <<< 5

/-- Bitwise complement of a `uint32_t` value (C's `~x` at type `unsigned int`). -/
def not32 (x : Nat) : Nat := 2 ^ 32 - 1 - x % 2 ^ 32

/-! ## Device state (`struct G233SPIState`, registers and internal state) -/

structure G233SPIState where
  cr1 : Nat
  cr2 : Nat
  sr : Nat
  dr : Nat
  csctrl : Nat
  rx_data : Nat
  spe : Bool
  mstr : Bool
  cs0_en : Bool
  cs0_act : Bool
  cs1_en : Bool
  cs1_act : Bool
deriving DecidableEq, Repr

/-- The ranges of the C field types: five `uint32_t` registers and one `uint8_t`. -/
def WF (s : G233SPIState) : Prop :=
  s.cr1 < 2 ^ 32 ∧ s.cr2 < 2 ^ 32 ∧ s.sr < 2 ^ 32 ∧ s.dr < 2 ^ 32 ∧ s.csctrl < 2 ^ 32 ∧
    s.rx_data < 2 ^ 8

instance (s : G233SPIState) : Decidable (WF s) := by
  unfold WF; infer_instance

/-- Calls made on the collaborators of the device, in program order.
`qemu_set_irq line level` is `qemu_set_irq(s->cs_lines[line], level)`;
`ssi_transfer tx` is `ssi_transfer(s->ssi, tx)`;
`qemu_log_mask addr` is the `LOG_GUEST_ERROR` diagnostic for a bad offset. -/
inductive Event where
  | qemu_set_irq (line : Nat) (level : Nat)
  | ssi_transfer (tx : Nat)
  | qemu_log_mask (addr : Nat)
deriving DecidableEq, Repr

/-! ## The functions of `g233_spi.c` -/

def g233_spi_update_cs (s : G233SPIState) : List Event :=
  [ Event.qemu_set_irq 0 (if s.cs0_en && s.cs0_act then 0 else 1),
    Event.qemu_set_irq 1 (if s.cs1_en && s.cs1_act then 0 else 1) ]

def g233_spi_update_irq (s : G233SPIState) : List Event :=
  let irq := false
  let irq := if (s.cr2 &&& (1 <<< 7)) != 0 && (s.sr &&& G233_SPI_SR_TXE) != 0 then true else irq
  let irq := if (s.cr2 &&& (1 <<< 6)) != 0 && (s.sr &&& G233_SPI_SR_RXNE) != 0 then true else irq
  let irq :=
    if (s.cr2 &&& (1 <<< 5)) != 0 && (s.sr &&& (G233_SPI_SR_UDR ||| G233_SPI_SR_OVR)) != 0
    then true else irq
  [ Event.qemu_set_irq 2 (if irq then 1 else 0) ]

def g233_spi_reset (s : G233SPIState) : G233SPIState × List Event :=
  let s := { s with cr1 := 0 }
  let s := { s with cr2 := 0 }
  let s := { s with sr := G233_SPI_SR_TXE }
  let s := { s with rx_data := 0 }
  let s := { s with spe := false }
  let s := { s with mstr := false }
  let s := { s with cs0_en := false }
  let s := { s with cs0_act := false }
  let s := { s with cs1_en := false }
  let s := { s with cs1_act := false }
  (s, g233_spi_update_cs s ++ g233_spi_update_irq s)

/-- `tx` is the byte handed to `ssi_transfer`, `rx` the `uint32_t` it returns. -/
def g233_spi_do_transfer (s : G233SPIState) (tx : Nat) (rx : Nat) :
    G233SPIState × List Event :=
  let s := { s with sr := s.sr &&& not32 G233_SPI_SR_TXE }
  let s := { s with sr := s.sr ||| G233_SPI_SR_BSY }
  let s := if (s.sr &&& G233_SPI_SR_RXNE) != 0
    then { s with sr := s.sr ||| G233_SPI_SR_OVR } else s
  let s := { s with rx_data := rx % 2 ^ 8 }
  let s := { s with sr := s.sr ||| G233_SPI_SR_RXNE }
  let s := { s with sr := s.sr ||| G233_SPI_SR_TXE }
  let s := { s with sr := s.sr &&& not32 G233_SPI_SR_BSY }
  (s, Event.ssi_transfer tx :: g233_spi_update_irq s)

/-- Returns the value read, the new state and the calls made. `_size` is the unused `size`. -/
def g233_spi_read (s : G233SPIState) (addr : Nat) (_size : Nat) :
    Nat × G233SPIState × List Event :=
  if addr = G233_SPI_CR1 then (s.cr1, s, [])
  else if addr = G233_SPI_CR2 then (s.cr2, s, [])
  else if addr = G233_SPI_SR then (s.sr, s, [])
  else if addr = G233_SPI_DR then
    let val := s.rx_data
    let s := { s with sr := s.sr &&& not32 G233_SPI_SR_RXNE }
    let s := { s with sr := s.sr &&& not32 G233_SPI_SR_OVR }
    (val, s, g233_spi_update_irq s)
  else if addr = G233_SPI_CSCTRL then (s.csctrl, s, [])
  else (0, s, [Event.qemu_log_mask addr])

/-- Returns the new state and the calls made. `val64` is the `uint64_t` written, `rx` the
value `ssi_transfer` returns if this write calls it. `_size` is the unused `size`. -/
def g233_spi_write (s : G233SPIState) (addr : Nat) (val64 : Nat) (_size : Nat) (rx : Nat) :
    G233SPIState × List Event :=
  let val := val64 % 2 ^ 32
  if addr = G233_SPI_CR1 then
    let s := { s with cr1 := val }
    let s := { s with spe := (val &&& G233_SPI_CR1_SPE) != 0 }
    let s := { s with mstr := (val &&& G233_SPI_CR1_MSTR) != 0 }
    (s, [])
  else if addr = G233_SPI_CR2 then
    let s := { s with cr2 := val }
    (s, g233_spi_update_irq s)
  else if addr = G233_SPI_SR then (s, [])
  else if addr = G233_SPI_DR then
    let s := { s with dr := val &&& 0xFF }
    let cs0_active := s.cs0_en && s.cs0_act
    let cs1_active := s.cs1_en && s.cs1_act
    if s.spe && s.mstr && xor cs0_active cs1_active then
      g233_spi_do_transfer s (s.dr % 2 ^ 8) rx
    else (s, [])
  else if addr = G233_SPI_CSCTRL then
    let s := { s with csctrl := val }
    let s := { s with cs0_en := (val &&& G233_SPI_CS0_ENABLE) != 0 }
    let s := { s with cs1_en := (val &&& G233_SPI_CS1_ENABLE) != 0 }
    let s := { s with cs0_act := (val &&& G233_SPI_CS0_ACTIVE) != 0 }
    let s := { s with cs1_act := (val &&& G233_SPI_CS1_ACTIVE) != 0 }
    (s, g233_spi_update_cs s)
  else (s, [Event.qemu_log_mask addr])

/-! ## Observations on the recorded calls -/

/-- The bytes handed to `ssi_transfer`, in order. -/
def bus_calls : List Event → List Nat
  | [] => []
  | Event.ssi_transfer tx :: es => tx :: bus_calls es
  | _ :: es => bus_calls es

/-- The level of output line `line` after the calls `es`, when it was `old` before. -/
def line_level (line : Nat) (old : Nat) : List Event → Nat
  | [] => old
  | Event.qemu_set_irq l v :: es => line_level line (if l = line then v else old) es
  | _ :: es => line_level line old es

/-- The levels driven on line `line` by the calls `es`, in order. -/
def driven (line : Nat) : List Event → List Nat
  | [] => []
  | Event.qemu_set_irq l v :: es => if l = line then v :: driven line es else driven line es
  | _ :: es => driven line es

/-! ## Status flags, by the bit numbers of the register map -/

def RXNE (s : G233SPIState) : Bool := s.sr.testBit 0
def TXE (s : G233SPIState) : Bool := s.sr.testBit 1
def UDR (s : G233SPIState) : Bool := s.sr.testBit 2
def OVR (s : G233SPIState) : Bool := s.sr.testBit 3
def BSY (s : G233SPIState) : Bool := s.sr.testBit 7

/-- A transfer is permitted: enabled, master, and exactly one chip-select is both enabled
and active. -/
def transfer_permitted (s : G233SPIState) : Prop :=
  s.spe = true ∧ s.mstr = true ∧
    (((s.cs0_en && s.cs0_act) = true ∧ (s.cs1_en && s.cs1_act) = false) ∨
     ((s.cs0_en && s.cs0_act) = false ∧ (s.cs1_en && s.cs1_act) = true))

instance (s : G233SPIState) : Decidable (transfer_permitted s) := by
  unfold transfer_permitted; infer_instance

/-! ## Sequences of operations -/

/-- One operation on the controller: a register read, a register write (with the value
`ssi_transfer` would return during it), or a reset. -/
inductive Op where
  | read (addr : Nat) (size : Nat)
  | write (addr : Nat) (val64 : Nat) (size : Nat) (rx : Nat)
  | reset
deriving DecidableEq, Repr

def step (s : G233SPIState) : Op → G233SPIState × List Event
  | Op.read addr size => (g233_spi_read s addr size).2
  | Op.write addr val64 size rx => g233_spi_write s addr val64 size rx
  | Op.reset => g233_spi_reset s

/-- Runs the operations in order; the calls made are concatenated. -/
def run (s : G233SPIState) : List Op → G233SPIState × List Event
  | [] => (s, [])
  | op :: ops => ((run (step s op).1 ops).1, (step s op).2 ++ (run (step s op).1 ops).2)

/-- Writes to the Data Register, one per element `(val64, size, rx)`. -/
def dr_writes (ws : List (Nat × Nat × Nat)) : List Op :=
  ws.map fun w => Op.write G233_SPI_DR w.1 w.2.1 w.2.2

/-- A register access that is not a write to Control Register 1 or to the Chip-Select
Control Register. -/
def keeps_selection : Op → Bool
  | Op.read _ _ => true
  | Op.write addr _ _ _ => addr != G233_SPI_CR1 && addr != G233_SPI_CSCTRL
  | Op.reset => false

/-- The live OR of the three interrupt conditions, from `cr2` and `sr`. -/
def irq_condition (cr2 sr : Nat) : Bool :=
  (cr2.testBit 7 && sr.testBit 1) || (cr2.testBit 6 && sr.testBit 0) ||
    (cr2.testBit 5 && (sr.testBit 2 || sr.testBit 3))

/-- The decoded flags the transfer permission depends on:
`(spe, mstr, cs0_en, cs0_act, cs1_en, cs1_act)`. -/
def selection (s : G233SPIState) : Bool × Bool × Bool × Bool × Bool × Bool :=
  (s.spe, s.mstr, s.cs0_en, s.cs0_act, s.cs1_en, s.cs1_act)

/-- Control1 value `c` has bits 6 and 2 set, and ChipSelectControl value `k` has exactly
one of (bit 0 and bit 4), (bit 1 and bit 5). -/
def selects (c k : Nat) : Prop :=
  c.testBit 6 = true ∧ c.testBit 2 = true ∧
    (((k.testBit 0 && k.testBit 4) = true ∧ (k.testBit 1 && k.testBit 5) = false) ∨
     ((k.testBit 0 && k.testBit 4) = false ∧ (k.testBit 1 && k.testBit 5) = true))

instance (c k : Nat) : Decidable (selects c k) := by
  unfold selects; infer_instance

/-- Reset, Control1 = `0x44`, ChipSelectControl = `0x11`, then Data = `b` answered by `r`. -/
def scenario (b r : Nat) : List Op :=
  [Op.reset, Op.write G233_SPI_CR1 0x44 4 0, Op.write G233_SPI_CSCTRL 0x11 4 0,
    Op.write G233_SPI_DR b 4 r]

/-! ## Concrete states used to exercise the theorems -/

/-- Enabled, master, chip-select 0 enabled and active, nothing received yet. -/
def st_selected : G233SPIState :=
  { cr1 := 0x44, cr2 := 0, sr := 0x02, dr := 0, csctrl := 0x11, rx_data := 0,
    spe := true, mstr := true, cs0_en := true, cs0_act := true,
    cs1_en := false, cs1_act := false }

/-- As `st_selected`, with a received byte `0x5A` not yet read. -/
def st_received : G233SPIState :=
  { st_selected with sr := 0x03, dr := 0xAB, rx_data := 0x5A }

/-- Enabled and master, but both chip-selects enabled and active. -/
def st_both : G233SPIState :=
  { st_selected with csctrl := 0x33, cs1_en := true, cs1_act := true }

/-- A zero-initialised controller (the object before its first reset). -/
def st_zero : G233SPIState :=
  { cr1 := 0, cr2 := 0, sr := 0, dr := 0, csctrl := 0, rx_data := 0,
    spe := false, mstr := false, cs0_en := false, cs0_act := false,
    cs1_en := false, cs1_act := false }

/-- As `st_received`, after a second byte arrived unread: RXNE, TXE and OVR set. -/
def st_overrun : G233SPIState :=
  { st_received with sr := 0x0B, rx_data := 0x77 }

/-- A restored snapshot whose status has TXE and UDR set. -/
def st_udr : G233SPIState :=
  { st_selected with sr := 0x06 }

/-! ## Invariants of the reachable states -/

/-- The status values met between operations: TXE, TXE|RXNE, TXE|RXNE|OVR. -/
def sr_reachable (sr : Nat) : Prop := sr = 0x02 ∨ sr = 0x03 ∨ sr = 0x0B

instance (sr : Nat) : Decidable (sr_reachable sr) := by
  unfold sr_reachable; infer_instance

/-- The levels `l0`, `l1`, `l2` of the three output lines are the ones derived from `s`:
chip-selects active-low from the decoded flags, interrupt the live OR of `irq_condition`. -/
def outputs_consistent (s : G233SPIState) (l0 l1 l2 : Nat) : Prop :=
  l0 = (if s.cs0_en && s.cs0_act then 0 else 1) ∧
    l1 = (if s.cs1_en && s.cs1_act then 0 else 1) ∧
    l2 = (if irq_condition s.cr2 s.sr then 1 else 0)

/-- The decoded chip-select flags are bits 0, 1, 4, 5 of the raw `csctrl`. -/
def cs_decoded (s : G233SPIState) : Prop :=
  s.cs0_en = s.csctrl.testBit 0 ∧ s.cs1_en = s.csctrl.testBit 1 ∧
    s.cs0_act = s.csctrl.testBit 4 ∧ s.cs1_act = s.csctrl.testBit 5

instance (s : G233SPIState) : Decidable (cs_decoded s) := by
  unfold cs_decoded; infer_instance

/-- The raw chip-select register with its four decoded flags:
`(csctrl, cs0_en, cs1_en, cs0_act, cs1_act)`. -/
def cs_fields (s : G233SPIState) : Nat × Bool × Bool × Bool × Bool :=
  (s.csctrl, s.cs0_en, s.cs1_en, s.cs0_act, s.cs1_act)

/-! ## Bit arithmetic -/

theorem and_two_pow_eq (x k : Nat) : x &&& 2 ^ k = (x.testBit k).toNat * 2 ^ k := by
  apply Nat.eq_of_testBit_eq
  intro i
  cases hb : x.testBit k
  · simp [Nat.testBit_two_pow]
    intro h1 h2; subst h2; simp [hb] at h1
  · simp [Nat.testBit_two_pow]
    intro h; subst h; exact hb

theorem and_two_pow_ne_zero (x k : Nat) : ((x &&& 2 ^ k) != 0) = x.testBit k := by
  rw [and_two_pow_eq]
  cases hb : x.testBit k <;> simp

theorem and_one_shiftLeft_ne_zero (x k : Nat) : ((x &&& (1 <<< k)) != 0) = x.testBit k := by
  rw [Nat.one_shiftLeft, and_two_pow_ne_zero]

theorem and_udr_ovr_ne_zero (x : Nat) :
    ((x &&& (G233_SPI_SR_UDR ||| G233_SPI_SR_OVR)) != 0) = (x.testBit 2 || x.testBit 3) := by
  have h : x &&& (G233_SPI_SR_UDR ||| G233_SPI_SR_OVR) =
      (x &&& 2 ^ 2) ||| (x &&& 2 ^ 3) := by
    apply Nat.eq_of_testBit_eq
    intro i
    simp only [G233_SPI_SR_UDR, G233_SPI_SR_OVR, Nat.one_shiftLeft, Nat.testBit_and,
      Nat.testBit_or, Bool.and_or_distrib_left]
  rw [h, and_two_pow_eq x 2, and_two_pow_eq x 3]
  cases x.testBit 2 <;> cases x.testBit 3 <;> decide

theorem testBit_not32 (x i : Nat) :
    (not32 x).testBit i = (decide (i < 32) && !x.testBit i) := by
  unfold not32
  have h : x % 2 ^ 32 < 2 ^ 32 := Nat.mod_lt _ (by decide)
  have := Nat.testBit_two_pow_sub_succ h i
  rw [show 2 ^ 32 - 1 - x % 2 ^ 32 = 2 ^ 32 - (x % 2 ^ 32 + 1) by omega, this]
  simp only [Nat.testBit_mod_two_pow]
  by_cases hi : i < 32 <;> simp [hi]

theorem testBit_one_shiftLeft (k i : Nat) : (1 <<< k).testBit i = decide (i = k) := by
  rw [Nat.one_shiftLeft, Nat.testBit_two_pow]
  by_cases h : k = i <;> simp [h, eq_comm]

theorem testBit_not32_one_shiftLeft (k i : Nat) :
    (not32 (1 <<< k)).testBit i = (decide (i < 32) && !decide (i = k)) := by
  rw [testBit_not32, testBit_one_shiftLeft]

theorem and_RXNE_ne_zero (x : Nat) : ((x &&& G233_SPI_SR_RXNE) != 0) = x.testBit 0 :=
  and_one_shiftLeft_ne_zero x 0

theorem and_TXE_ne_zero (x : Nat) : ((x &&& G233_SPI_SR_TXE) != 0) = x.testBit 1 :=
  and_one_shiftLeft_ne_zero x 1

theorem testBit_RXNE (i : Nat) : G233_SPI_SR_RXNE.testBit i = decide (i = 0) :=
  testBit_one_shiftLeft 0 i

theorem testBit_TXE (i : Nat) : G233_SPI_SR_TXE.testBit i = decide (i = 1) :=
  testBit_one_shiftLeft 1 i

theorem testBit_OVR (i : Nat) : G233_SPI_SR_OVR.testBit i = decide (i = 3) :=
  testBit_one_shiftLeft 3 i

theorem testBit_BSY (i : Nat) : G233_SPI_SR_BSY.testBit i = decide (i = 7) :=
  testBit_one_shiftLeft 7 i

theorem testBit_not32_RXNE (i : Nat) :
    (not32 G233_SPI_SR_RXNE).testBit i = (decide (i < 32) && !decide (i = 0)) :=
  testBit_not32_one_shiftLeft 0 i

theorem testBit_not32_TXE (i : Nat) :
    (not32 G233_SPI_SR_TXE).testBit i = (decide (i < 32) && !decide (i = 1)) :=
  testBit_not32_one_shiftLeft 1 i

theorem testBit_not32_OVR (i : Nat) :
    (not32 G233_SPI_SR_OVR).testBit i = (decide (i < 32) && !decide (i = 3)) :=
  testBit_not32_one_shiftLeft 3 i

theorem testBit_not32_BSY (i : Nat) :
    (not32 G233_SPI_SR_BSY).testBit i = (decide (i < 32) && !decide (i = 7)) :=
  testBit_not32_one_shiftLeft 7 i

theorem u32_and_ff (v : Nat) : (v % 2 ^ 32) &&& 0xFF = v % 256 := by
  rw [show (0xFF : Nat) = 2 ^ 8 - 1 from rfl, Nat.and_pow_two_sub_one_eq_mod,
    Nat.mod_mod_of_dvd _ (by decide : 2 ^ 8 ∣ 2 ^ 32)]
  rfl

theorem testBit_u32 (v i : Nat) (h : i < 32) : (v % 2 ^ 32).testBit i = v.testBit i := by
  rw [Nat.testBit_mod_two_pow]
  simp [h]

/-! ## The interrupt level in terms of bits -/

theorem update_irq_eq (s : G233SPIState) :
    g233_spi_update_irq s =
      [Event.qemu_set_irq 2 (if irq_condition s.cr2 s.sr then 1 else 0)] := by
  unfold g233_spi_update_irq irq_condition
  simp only [and_TXE_ne_zero, and_RXNE_ne_zero, and_one_shiftLeft_ne_zero, and_udr_ovr_ne_zero]
  cases s.cr2.testBit 7 <;> cases s.cr2.testBit 6 <;> cases s.cr2.testBit 5 <;>
    cases s.sr.testBit 0 <;> cases s.sr.testBit 1 <;> cases s.sr.testBit 2 <;>
    cases s.sr.testBit 3 <;> rfl

/-! ## The transfer -/

theorem do_transfer_fields (s : G233SPIState) (tx rx : Nat) :
    (g233_spi_do_transfer s tx rx).1 =
      { s with sr := (g233_spi_do_transfer s tx rx).1.sr, rx_data := rx % 256 } := by
  unfold g233_spi_do_transfer
  dsimp only
  split <;> rfl

theorem do_transfer_events (s : G233SPIState) (tx rx : Nat) :
    (g233_spi_do_transfer s tx rx).2 =
      [Event.ssi_transfer tx, Event.qemu_set_irq 2
        (if irq_condition s.cr2 (g233_spi_do_transfer s tx rx).1.sr then 1 else 0)] := by
  have h : (g233_spi_do_transfer s tx rx).2 =
      Event.ssi_transfer tx :: g233_spi_update_irq (g233_spi_do_transfer s tx rx).1 := rfl
  rw [h, update_irq_eq]
  have h2 : (g233_spi_do_transfer s tx rx).1.cr2 = s.cr2 := by
    rw [do_transfer_fields]
  rw [h2]

theorem do_transfer_sr_testBit (s : G233SPIState) (tx rx i : Nat) (hi : i < 32) :
    (g233_spi_do_transfer s tx rx).1.sr.testBit i =
      (decide (i = 0) || decide (i = 1) || (decide (i = 3) && s.sr.testBit 0) ||
        (!decide (i = 7) && s.sr.testBit i)) := by
  unfold g233_spi_do_transfer
  simp only [and_RXNE_ne_zero]
  split <;> rename_i h <;>
    simp only [Nat.testBit_and, Nat.testBit_or, testBit_not32_TXE, testBit_not32_BSY,
      testBit_RXNE, testBit_TXE, testBit_OVR, testBit_BSY, hi, decide_True,
      Bool.true_and] at h ⊢ <;>
    simp at h <;>
    by_cases h0 : i = 0 <;> by_cases h1 : i = 1 <;> by_cases h3 : i = 3 <;>
    by_cases h7 : i = 7 <;> simp_all

/-! ## Data Register writes -/

theorem permitted_iff (s : G233SPIState) :
    (s.spe && s.mstr && xor (s.cs0_en && s.cs0_act) (s.cs1_en && s.cs1_act)) = true ↔
      transfer_permitted s := by
  unfold transfer_permitted
  cases s.spe <;> cases s.mstr <;> cases s.cs0_en <;> cases s.cs0_act <;>
    cases s.cs1_en <;> cases s.cs1_act <;> decide

theorem write_dr_permitted (s : G233SPIState) (v sz r : Nat) (hp : transfer_permitted s) :
    g233_spi_write s G233_SPI_DR v sz r =
      g233_spi_do_transfer { s with dr := v % 256 } (v % 256) r := by
  have h := (permitted_iff s).2 hp
  unfold g233_spi_write
  simp only [G233_SPI_DR, G233_SPI_CR1, G233_SPI_CR2, G233_SPI_SR, u32_and_ff]
  simp [h]

theorem write_dr_refused (s : G233SPIState) (v sz r : Nat) (hn : ¬ transfer_permitted s) :
    g233_spi_write s G233_SPI_DR v sz r = ({ s with dr := v % 256 }, []) := by
  have h : ¬ (s.spe && s.mstr && xor (s.cs0_en && s.cs0_act) (s.cs1_en && s.cs1_act)) = true :=
    fun h => hn ((permitted_iff s).1 h)
  unfold g233_spi_write
  simp only [G233_SPI_DR, G233_SPI_CR1, G233_SPI_CR2, G233_SPI_SR, u32_and_ff]
  simp [h]

theorem write_dr_keeps_permission (s : G233SPIState) (v sz r : Nat) :
    transfer_permitted (g233_spi_write s G233_SPI_DR v sz r).1 ↔ transfer_permitted s := by
  by_cases hp : transfer_permitted s
  · rw [write_dr_permitted s v sz r hp, do_transfer_fields]
    exact Iff.rfl
  · rw [write_dr_refused s v sz r hp]
    exact Iff.rfl

/-- C2: when a transfer is permitted and RXNE is clear, a Data Register write of `v` with
bus response `r` calls the bus exchange exactly once, with the byte `v mod 256`, and ends
with RXNE = 1, TXE = 1, BSY = 0, OVR and UDR as before, `dr = v mod 256` and
`rx_data = r mod 256`. -/
theorem data_write_transfer (s : G233SPIState) (v sz r : Nat)
    (hp : transfer_permitted s) (hr : RXNE s = false) :
    bus_calls (g233_spi_write s G233_SPI_DR v sz r).2 = [v % 256] ∧
      RXNE (g233_spi_write s G233_SPI_DR v sz r).1 = true ∧
      TXE (g233_spi_write s G233_SPI_DR v sz r).1 = true ∧
      BSY (g233_spi_write s G233_SPI_DR v sz r).1 = false ∧
      OVR (g233_spi_write s G233_SPI_DR v sz r).1 = OVR s ∧
      UDR (g233_spi_write s G233_SPI_DR v sz r).1 = UDR s ∧
      (g233_spi_write s G233_SPI_DR v sz r).1.dr = v % 256 ∧
      (g233_spi_write s G233_SPI_DR v sz r).1.rx_data = r % 256 := by
  have hr0 : s.sr.testBit 0 = false := hr
  rw [write_dr_permitted s v sz r hp]
  refine ⟨?_, ?_, ?_, ?_, ?_, ?_, ?_, ?_⟩
  · rw [do_transfer_events]; rfl
  · unfold RXNE; rw [do_transfer_sr_testBit _ _ _ _ (by decide)]; rfl
  · unfold TXE; rw [do_transfer_sr_testBit _ _ _ _ (by decide)]; rfl
  · unfold BSY; rw [do_transfer_sr_testBit _ _ _ _ (by decide)]; rfl
  · unfold OVR; rw [do_transfer_sr_testBit _ _ _ _ (by decide)]
    show (false || false || (true && s.sr.testBit 0) || (true && s.sr.testBit 3)) = _
    rw [hr0]; simp
  · unfold UDR; rw [do_transfer_sr_testBit _ _ _ _ (by decide)]
    show (false || false || (false && s.sr.testBit 0) || (true && s.sr.testBit 2)) = _
    simp
  · rw [do_transfer_fields]
  · rw [do_transfer_fields]

theorem data_write_transfer_witness :
    transfer_permitted st_selected ∧ RXNE st_selected = false ∧
      bus_calls (g233_spi_write st_selected G233_SPI_DR 0x1AB 4 0x5A).2 = [0x1AB % 256] ∧
      RXNE (g233_spi_write st_selected G233_SPI_DR 0x1AB 4 0x5A).1 = true ∧
      TXE (g233_spi_write st_selected G233_SPI_DR 0x1AB 4 0x5A).1 = true ∧
      BSY (g233_spi_write st_selected G233_SPI_DR 0x1AB 4 0x5A).1 = false ∧
      OVR (g233_spi_write st_selected G233_SPI_DR 0x1AB 4 0x5A).1 = OVR st_selected ∧
      UDR (g233_spi_write st_selected G233_SPI_DR 0x1AB 4 0x5A).1 = UDR st_selected ∧
      (g233_spi_write st_selected G233_SPI_DR 0x1AB 4 0x5A).1.dr = 0x1AB % 256 ∧
      (g233_spi_write st_selected G233_SPI_DR 0x1AB 4 0x5A).1.rx_data = 0x5A % 256 :=
  ⟨by decide, by decide,
    data_write_transfer st_selected 0x1AB 4 0x5A (by decide) (by decide)⟩

theorem run_dr_writes_refused (ws : List (Nat × Nat × Nat)) :
    ∀ s : G233SPIState, ¬ transfer_permitted s →
      run s (dr_writes ws) =
        ({ s with dr := (ws.getLast?.map fun w => w.1 % 256).getD s.dr }, []) := by
  induction ws with
  | nil => intro s _; rfl
  | cons w ws ih =>
    intro s hn
    have h1 := write_dr_refused s w.1 w.2.1 w.2.2 hn
    have hn1 : ¬ transfer_permitted ({ s with dr := w.1 % 256 } : G233SPIState) := hn
    have h2 := ih _ hn1
    have hrun : run s (dr_writes (w :: ws)) =
        ((run (g233_spi_write s G233_SPI_DR w.1 w.2.1 w.2.2).1 (dr_writes ws)).1,
          (g233_spi_write s G233_SPI_DR w.1 w.2.1 w.2.2).2 ++
            (run (g233_spi_write s G233_SPI_DR w.1 w.2.1 w.2.2).1 (dr_writes ws)).2) := rfl
    rw [hrun, h1, h2]
    cases ws with
    | nil => rfl
    | cons a l => rw [List.getLast?_cons_cons]; rfl

/-- C3: when a transfer is not permitted, any finite sequence of Data Register writes makes
no call at all (no bus exchange, no output line driven) and changes no field but `dr`,
which ends as the low byte of the last value written; in particular the status is the
initial one after every write of the sequence. -/
theorem data_writes_refused (s : G233SPIState) (ws : List (Nat × Nat × Nat))
    (hn : ¬ transfer_permitted s) :
    run s (dr_writes ws) =
        ({ s with dr := (ws.getLast?.map fun w => w.1 % 256).getD s.dr }, []) ∧
      bus_calls (run s (dr_writes ws)).2 = [] ∧
      (∀ line old, line_level line old (run s (dr_writes ws)).2 = old) ∧
      (∀ n, (run s (dr_writes (ws.take n))).1.sr = s.sr ∧
        (run s (dr_writes (ws.take n))).2 = []) := by
  refine ⟨run_dr_writes_refused ws s hn, ?_, ?_, ?_⟩
  · rw [run_dr_writes_refused ws s hn]; rfl
  · intro line old; rw [run_dr_writes_refused ws s hn]; rfl
  · intro n; rw [run_dr_writes_refused (ws.take n) s hn]; exact ⟨rfl, rfl⟩

theorem data_writes_refused_witness :
    ¬ transfer_permitted st_both ∧
      run st_both (dr_writes [(0xAB, 4, 0x5A), (0x1CD, 4, 0x77)]) =
        ({ st_both with dr := 0xCD }, []) :=
  ⟨by decide, (data_writes_refused st_both [(0xAB, 4, 0x5A), (0x1CD, 4, 0x77)] (by decide)).1⟩

/-- C4: when a transfer is permitted and RXNE is already set, a Data Register write ends
with OVR = 1, RXNE = 1, TXE = 1, BSY = 0 and `rx_data` the newly received byte; and two
consecutive Data Register writes from a permitted state with RXNE = 0 leave OVR = 1. -/
theorem data_write_overrun (s : G233SPIState) (v sz r v2 sz2 r2 : Nat)
    (hp : transfer_permitted s) :
    (RXNE s = true →
      OVR (g233_spi_write s G233_SPI_DR v sz r).1 = true ∧
      RXNE (g233_spi_write s G233_SPI_DR v sz r).1 = true ∧
      TXE (g233_spi_write s G233_SPI_DR v sz r).1 = true ∧
      BSY (g233_spi_write s G233_SPI_DR v sz r).1 = false ∧
      (g233_spi_write s G233_SPI_DR v sz r).1.rx_data = r % 256) ∧
    (RXNE s = false →
      transfer_permitted (g233_spi_write s G233_SPI_DR v sz r).1 ∧
      OVR (g233_spi_write (g233_spi_write s G233_SPI_DR v sz r).1 G233_SPI_DR v2 sz2 r2).1
        = true ∧
      (g233_spi_write (g233_spi_write s G233_SPI_DR v sz r).1 G233_SPI_DR v2 sz2 r2).1.rx_data
        = r2 % 256) := by
  have key : ∀ (t : G233SPIState) (w z q : Nat), transfer_permitted t →
      RXNE (g233_spi_write t G233_SPI_DR w z q).1 = true ∧
      TXE (g233_spi_write t G233_SPI_DR w z q).1 = true ∧
      BSY (g233_spi_write t G233_SPI_DR w z q).1 = false ∧
      (g233_spi_write t G233_SPI_DR w z q).1.rx_data = q % 256 ∧
      (RXNE t = true → OVR (g233_spi_write t G233_SPI_DR w z q).1 = true) := by
    intro t w z q ht
    rw [write_dr_permitted t w z q ht]
    refine ⟨?_, ?_, ?_, ?_, ?_⟩
    · unfold RXNE; rw [do_transfer_sr_testBit _ _ _ _ (by decide)]; rfl
    · unfold TXE; rw [do_transfer_sr_testBit _ _ _ _ (by decide)]; rfl
    · unfold BSY; rw [do_transfer_sr_testBit _ _ _ _ (by decide)]; rfl
    · rw [do_transfer_fields]
    · intro h
      have h0 : t.sr.testBit 0 = true := h
      unfold OVR; rw [do_transfer_sr_testBit _ _ _ _ (by decide)]
      show (false || false || (true && t.sr.testBit 0) || (true && t.sr.testBit 3)) = true
      rw [h0]; simp
  constructor
  · intro h
    obtain ⟨k1, k2, k3, k4, k5⟩ := key s v sz r hp
    exact ⟨k5 h, k1, k2, k3, k4⟩
  · intro _
    have hp1 := (write_dr_keeps_permission s v sz r).2 hp
    obtain ⟨k1, _, _, _, _⟩ := key s v sz r hp
    obtain ⟨_, _, _, m4, m5⟩ := key (g233_spi_write s G233_SPI_DR v sz r).1 v2 sz2 r2 hp1
    exact ⟨hp1, m5 k1, m4⟩

theorem data_write_overrun_witness :
    (transfer_permitted st_received ∧ RXNE st_received = true ∧
      OVR (g233_spi_write st_received G233_SPI_DR 0xCD 4 0x77).1 = true ∧
      RXNE (g233_spi_write st_received G233_SPI_DR 0xCD 4 0x77).1 = true ∧
      TXE (g233_spi_write st_received G233_SPI_DR 0xCD 4 0x77).1 = true ∧
      BSY (g233_spi_write st_received G233_SPI_DR 0xCD 4 0x77).1 = false ∧
      (g233_spi_write st_received G233_SPI_DR 0xCD 4 0x77).1.rx_data = 0x77 % 256) ∧
    (transfer_permitted st_selected ∧ RXNE st_selected = false ∧
      OVR (g233_spi_write (g233_spi_write st_selected G233_SPI_DR 0xAB 4 0x5A).1
        G233_SPI_DR 0xCD 4 0x77).1 = true) :=
  ⟨⟨by decide, by decide,
      (data_write_overrun st_received 0xCD 4 0x77 0 0 0 (by decide)).1 (by decide)⟩,
    ⟨by decide, by decide,
      ((data_write_overrun st_selected 0xAB 4 0x5A 0xCD 4 0x77 (by decide)).2 (by decide)).2.1⟩⟩

/-! ## Data Register reads -/

theorem read_dr_eq (s : G233SPIState) (sz : Nat) :
    g233_spi_read s G233_SPI_DR sz =
      (s.rx_data,
        { s with sr := s.sr &&& not32 G233_SPI_SR_RXNE &&& not32 G233_SPI_SR_OVR },
        g233_spi_update_irq
          { s with sr := s.sr &&& not32 G233_SPI_SR_RXNE &&& not32 G233_SPI_SR_OVR }) := by
  unfold g233_spi_read
  simp only [G233_SPI_DR, G233_SPI_CR1, G233_SPI_CR2, G233_SPI_SR]
  simp

theorem read_dr_sr_testBit (s : G233SPIState) (sz i : Nat) :
    (g233_spi_read s G233_SPI_DR sz).2.1.sr.testBit i =
      (s.sr.testBit i && decide (i < 32) && !decide (i = 0) && !decide (i = 3)) := by
  rw [read_dr_eq]
  simp only [Nat.testBit_and, testBit_not32_RXNE, testBit_not32_OVR]
  cases s.sr.testBit i <;> by_cases h : i < 32 <;> by_cases h0 : i = 0 <;>
    by_cases h3 : i = 3 <;> simp [h, h0, h3]

theorem testBit_of_lt_u32 (x i : Nat) (h : x < 2 ^ 32) :
    (x.testBit i && decide (i < 32)) = x.testBit i := by
  by_cases hi : i < 32
  · simp [hi]
  · have : x < 2 ^ i :=
      Nat.lt_of_lt_of_le h (Nat.pow_le_pow_right (by decide) (Nat.le_of_not_lt hi))
    simp [Nat.testBit_lt_two_pow this]

/-- C5: a Data Register read returns `rx_data`; the new status is the old one with RXNE and
OVR cleared and every other bit (TXE, UDR, BSY among them) as before; no other field
changes; a second Data Register read right after returns the same byte and leaves the
state as it is. -/
theorem data_read_spec (s : G233SPIState) (sz sz2 : Nat) (h : s.sr < 2 ^ 32) :
    (g233_spi_read s G233_SPI_DR sz).1 = s.rx_data ∧
      (g233_spi_read s G233_SPI_DR sz).2.1 =
        { s with sr := (g233_spi_read s G233_SPI_DR sz).2.1.sr } ∧
      (∀ i, (g233_spi_read s G233_SPI_DR sz).2.1.sr.testBit i =
        (s.sr.testBit i && !decide (i = 0) && !decide (i = 3))) ∧
      RXNE (g233_spi_read s G233_SPI_DR sz).2.1 = false ∧
      OVR (g233_spi_read s G233_SPI_DR sz).2.1 = false ∧
      TXE (g233_spi_read s G233_SPI_DR sz).2.1 = TXE s ∧
      UDR (g233_spi_read s G233_SPI_DR sz).2.1 = UDR s ∧
      BSY (g233_spi_read s G233_SPI_DR sz).2.1 = BSY s ∧
      (g233_spi_read (g233_spi_read s G233_SPI_DR sz).2.1 G233_SPI_DR sz2).1 = s.rx_data ∧
      RXNE (g233_spi_read (g233_spi_read s G233_SPI_DR sz).2.1 G233_SPI_DR sz2).2.1 = false ∧
      (g233_spi_read (g233_spi_read s G233_SPI_DR sz).2.1 G233_SPI_DR sz2).2.1 =
        (g233_spi_read s G233_SPI_DR sz).2.1 := by
  have hbit : ∀ i, (g233_spi_read s G233_SPI_DR sz).2.1.sr.testBit i =
      (s.sr.testBit i && !decide (i = 0) && !decide (i = 3)) := by
    intro i
    rw [read_dr_sr_testBit, testBit_of_lt_u32 _ _ h]
  have hfld : (g233_spi_read s G233_SPI_DR sz).2.1 =
      { s with sr := (g233_spi_read s G233_SPI_DR sz).2.1.sr } := by
    rw [read_dr_eq]
  have hsr2 : (g233_spi_read (g233_spi_read s G233_SPI_DR sz).2.1 G233_SPI_DR sz2).2.1.sr =
      (g233_spi_read s G233_SPI_DR sz).2.1.sr := by
    apply Nat.eq_of_testBit_eq
    intro i
    rw [read_dr_sr_testBit, read_dr_sr_testBit]
    cases s.sr.testBit i <;> by_cases h32 : i < 32 <;> by_cases h0 : i = 0 <;>
      by_cases h3 : i = 3 <;> simp [h32, h0, h3]
  refine ⟨?_, hfld, hbit, ?_, ?_, ?_, ?_, ?_, ?_, ?_, ?_⟩
  · rw [read_dr_eq]
  · unfold RXNE; rw [hbit]; simp
  · unfold OVR; rw [hbit]; simp
  · unfold TXE; rw [hbit]; simp
  · unfold UDR; rw [hbit]; simp
  · unfold BSY; rw [hbit]; simp
  · rw [read_dr_eq, read_dr_eq]
  · unfold RXNE; rw [read_dr_sr_testBit]; simp
  · have e : (g233_spi_read (g233_spi_read s G233_SPI_DR sz).2.1 G233_SPI_DR sz2).2.1 =
        { (g233_spi_read s G233_SPI_DR sz).2.1 with
          sr := (g233_spi_read (g233_spi_read s G233_SPI_DR sz).2.1 G233_SPI_DR sz2).2.1.sr } := by
      rw [read_dr_eq (g233_spi_read s G233_SPI_DR sz).2.1]
    rw [e, hsr2]

theorem data_read_spec_witness :
    st_received.sr < 2 ^ 32 ∧
      (g233_spi_read st_received G233_SPI_DR 4).1 = 0x5A ∧
      (g233_spi_read st_received G233_SPI_DR 4).2.1 = { st_received with sr := 0x02 } ∧
      (g233_spi_read (g233_spi_read st_received G233_SPI_DR 4).2.1 G233_SPI_DR 4).1 = 0x5A :=
  ⟨by decide, (data_read_spec st_received 4 4 (by decide)).1, by decide,
    (data_read_spec st_received 4 4 (by decide)).2.2.2.2.2.2.2.2.1⟩

/-! ## Control Register 2 and Chip-Select Control Register writes -/

theorem and_mask_u32 (v k : Nat) (hk : k < 32) :
    (((v % 2 ^ 32) &&& (1 <<< k)) != 0) = v.testBit k := by
  rw [and_one_shiftLeft_ne_zero, testBit_u32 v k hk]

theorem irq_condition_u32 (v sr : Nat) :
    irq_condition (v % 2 ^ 32) sr = irq_condition v sr := by
  unfold irq_condition
  rw [testBit_u32 v 7 (by decide), testBit_u32 v 6 (by decide), testBit_u32 v 5 (by decide)]

theorem write_cr2_eq (s : G233SPIState) (v sz r : Nat) :
    g233_spi_write s G233_SPI_CR2 v sz r =
      ({ s with cr2 := v % 2 ^ 32 },
        [Event.qemu_set_irq 2 (if irq_condition v s.sr then 1 else 0)]) := by
  have h : g233_spi_write s G233_SPI_CR2 v sz r =
      ({ s with cr2 := v % 2 ^ 32 },
        g233_spi_update_irq { s with cr2 := v % 2 ^ 32 }) := by
    unfold g233_spi_write
    simp only [G233_SPI_CR2, G233_SPI_CR1]
    simp
  rw [h, update_irq_eq, irq_condition_u32]

/-- C6: a write of `v` to Control Register 2 stores `v mod 2^32` in `cr2` and changes no
other field; its only call drives the interrupt line, to level 1 exactly when
(bit 7 of `cr2` and TXE) or (bit 6 and RXNE) or (bit 5 and (UDR or OVR)), else to level 0;
so writing a value with bit 7 set while TXE = 1 asserts the interrupt in that write. -/
theorem cr2_write_spec (s : G233SPIState) (v sz r : Nat) :
    (g233_spi_write s G233_SPI_CR2 v sz r).1 = { s with cr2 := v % 2 ^ 32 } ∧
      (g233_spi_write s G233_SPI_CR2 v sz r).2 =
        [Event.qemu_set_irq 2
          (if ((g233_spi_write s G233_SPI_CR2 v sz r).1.cr2.testBit 7 && TXE s) ||
              ((g233_spi_write s G233_SPI_CR2 v sz r).1.cr2.testBit 6 && RXNE s) ||
              ((g233_spi_write s G233_SPI_CR2 v sz r).1.cr2.testBit 5 && (UDR s || OVR s))
            then 1 else 0)] ∧
      (∀ old, line_level 2 old (g233_spi_write s G233_SPI_CR2 v sz r).2 = 1 ↔
        ((v.testBit 7 = true ∧ TXE s = true) ∨ (v.testBit 6 = true ∧ RXNE s = true) ∨
          (v.testBit 5 = true ∧ (UDR s = true ∨ OVR s = true)))) ∧
      (∀ old, line_level 2 old (g233_spi_write s G233_SPI_CR2 v sz r).2 = 0 ↔
        ¬ ((v.testBit 7 = true ∧ TXE s = true) ∨ (v.testBit 6 = true ∧ RXNE s = true) ∨
          (v.testBit 5 = true ∧ (UDR s = true ∨ OVR s = true)))) ∧
      (v.testBit 7 = true → TXE s = true →
        (g233_spi_write s G233_SPI_CR2 v sz r).2 = [Event.qemu_set_irq 2 1]) := by
  rw [write_cr2_eq]
  have hc : irq_condition v s.sr =
      ((v.testBit 7 && TXE s) || (v.testBit 6 && RXNE s) ||
        (v.testBit 5 && (UDR s || OVR s))) := rfl
  refine ⟨rfl, ?_, ?_, ?_, ?_⟩
  · show _ = [Event.qemu_set_irq 2
      (if (((v % 2 ^ 32).testBit 7 && TXE s) || ((v % 2 ^ 32).testBit 6 && RXNE s) ||
        ((v % 2 ^ 32).testBit 5 && (UDR s || OVR s))) then 1 else 0)]
    rw [testBit_u32 v 7 (by decide), testBit_u32 v 6 (by decide),
      testBit_u32 v 5 (by decide), ← hc]
  · intro old
    show (if irq_condition v s.sr then 1 else 0) = 1 ↔ _
    rw [hc]
    cases v.testBit 7 <;> cases v.testBit 6 <;> cases v.testBit 5 <;> cases TXE s <;>
      cases RXNE s <;> cases UDR s <;> cases OVR s <;> decide
  · intro old
    show (if irq_condition v s.sr then 1 else 0) = 0 ↔ _
    rw [hc]
    cases v.testBit 7 <;> cases v.testBit 6 <;> cases v.testBit 5 <;> cases TXE s <;>
      cases RXNE s <;> cases UDR s <;> cases OVR s <;> decide
  · intro h7 ht
    show [Event.qemu_set_irq 2 (if irq_condition v s.sr then 1 else 0)] = _
    rw [hc, h7, ht]
    rfl

theorem cr2_write_spec_witness :
    Nat.testBit 0x80 7 = true ∧ TXE st_selected = true ∧
      (g233_spi_write st_selected G233_SPI_CR2 0x80 4 0).1 = { st_selected with cr2 := 0x80 } ∧
      (g233_spi_write st_selected G233_SPI_CR2 0x80 4 0).2 = [Event.qemu_set_irq 2 1] :=
  ⟨by decide, by decide, by decide,
    (cr2_write_spec st_selected 0x80 4 0).2.2.2.2 (by decide) (by decide)⟩

theorem write_csctrl_eq (s : G233SPIState) (v sz r : Nat) :
    g233_spi_write s G233_SPI_CSCTRL v sz r =
      ({ s with csctrl := v % 2 ^ 32, cs0_en := v.testBit 0, cs1_en := v.testBit 1,
                cs0_act := v.testBit 4, cs1_act := v.testBit 5 },
        [Event.qemu_set_irq 0 (if v.testBit 0 && v.testBit 4 then 0 else 1),
         Event.qemu_set_irq 1 (if v.testBit 1 && v.testBit 5 then 0 else 1)]) := by
  unfold g233_spi_write g233_spi_update_cs
  simp only [G233_SPI_CSCTRL, G233_SPI_CR1, G233_SPI_CR2, G233_SPI_SR, G233_SPI_DR,
    G233_SPI_CS0_ENABLE, G233_SPI_CS1_ENABLE, G233_SPI_CS0_ACTIVE, G233_SPI_CS1_ACTIVE,
    and_mask_u32 v 0 (by decide), and_mask_u32 v 1 (by decide),
    and_mask_u32 v 4 (by decide), and_mask_u32 v 5 (by decide)]
  simp

/-- C7: a write of `v` to the Chip-Select Control Register stores `v mod 2^32` in `csctrl`,
sets `cs0_en`, `cs1_en`, `cs0_act`, `cs1_act` to bits 0, 1, 4, 5 of `v`, and in the same
write drives line 0 to level 0 iff bits 0 and 4 are both set (else 1) and line 1 to level
0 iff bits 1 and 5 are both set (else 1), whatever the status; writing `0x11` drives line
0 to 0 and line 1 to 1. Status, `dr`, `rx_data`, `cr1`, `cr2`, `spe`, `mstr` are unchanged,
the interrupt line is not driven and no bus exchange is made. -/
theorem csctrl_write_spec (s : G233SPIState) (v sz r : Nat) :
    (g233_spi_write s G233_SPI_CSCTRL v sz r).1 =
        { s with csctrl := v % 2 ^ 32, cs0_en := v.testBit 0, cs1_en := v.testBit 1,
                 cs0_act := v.testBit 4, cs1_act := v.testBit 5 } ∧
      (g233_spi_write s G233_SPI_CSCTRL v sz r).2 =
        [Event.qemu_set_irq 0 (if v.testBit 0 && v.testBit 4 then 0 else 1),
         Event.qemu_set_irq 1 (if v.testBit 1 && v.testBit 5 then 0 else 1)] ∧
      (∀ old, line_level 0 old (g233_spi_write s G233_SPI_CSCTRL v sz r).2 =
        if v.testBit 0 && v.testBit 4 then 0 else 1) ∧
      (∀ old, line_level 1 old (g233_spi_write s G233_SPI_CSCTRL v sz r).2 =
        if v.testBit 1 && v.testBit 5 then 0 else 1) ∧
      (∀ old, line_level 2 old (g233_spi_write s G233_SPI_CSCTRL v sz r).2 = old) ∧
      driven 2 (g233_spi_write s G233_SPI_CSCTRL v sz r).2 = [] ∧
      bus_calls (g233_spi_write s G233_SPI_CSCTRL v sz r).2 = [] ∧
      (g233_spi_write s G233_SPI_CSCTRL 0x11 sz r).2 =
        [Event.qemu_set_irq 0 0, Event.qemu_set_irq 1 1] := by
  rw [write_csctrl_eq, write_csctrl_eq]
  exact ⟨rfl, rfl, fun _ => rfl, fun _ => rfl, fun _ => rfl, rfl, rfl, rfl⟩

/-! ## Invalid offsets -/

/-- C10: at any offset other than `0x00`, `0x04`, `0x08`, `0x0C`, `0x10`, a read returns 0
and a write is discarded; either way the state is unchanged, the only call made is the
guest-error diagnostic, so no output line is driven and no bus exchange is made. -/
theorem bad_offset_spec (s : G233SPIState) (addr v sz r : Nat)
    (h : addr ≠ 0x00 ∧ addr ≠ 0x04 ∧ addr ≠ 0x08 ∧ addr ≠ 0x0C ∧ addr ≠ 0x10) :
    g233_spi_read s addr sz = (0, s, [Event.qemu_log_mask addr]) ∧
      g233_spi_write s addr v sz r = (s, [Event.qemu_log_mask addr]) ∧
      bus_calls (g233_spi_read s addr sz).2.2 = [] ∧
      bus_calls (g233_spi_write s addr v sz r).2 = [] ∧
      (∀ line old, line_level line old (g233_spi_read s addr sz).2.2 = old ∧
        driven line (g233_spi_read s addr sz).2.2 = []) ∧
      (∀ line old, line_level line old (g233_spi_write s addr v sz r).2 = old ∧
        driven line (g233_spi_write s addr v sz r).2 = []) := by
  obtain ⟨h0, h4, h8, hc, h10⟩ := h
  have hr : g233_spi_read s addr sz = (0, s, [Event.qemu_log_mask addr]) := by
    unfold g233_spi_read
    simp only [G233_SPI_CSCTRL, G233_SPI_CR1, G233_SPI_CR2, G233_SPI_SR, G233_SPI_DR]
    simp [h0, h4, h8, hc, h10]
  have hw : g233_spi_write s addr v sz r = (s, [Event.qemu_log_mask addr]) := by
    unfold g233_spi_write
    simp only [G233_SPI_CSCTRL, G233_SPI_CR1, G233_SPI_CR2, G233_SPI_SR, G233_SPI_DR]
    simp [h0, h4, h8, hc, h10]
  rw [hr, hw]
  exact ⟨rfl, rfl, rfl, rfl, fun _ _ => ⟨rfl, rfl⟩, fun _ _ => ⟨rfl, rfl⟩⟩

theorem bad_offset_spec_witness :
    ((0x14 : Nat) ≠ 0x00 ∧ (0x14 : Nat) ≠ 0x04 ∧ (0x14 : Nat) ≠ 0x08 ∧ (0x14 : Nat) ≠ 0x0C ∧
        (0x14 : Nat) ≠ 0x10) ∧
      g233_spi_read st_received 0x14 4 = (0, st_received, [Event.qemu_log_mask 0x14]) ∧
      g233_spi_write st_received 0x14 0xFF 4 0x5A =
        (st_received, [Event.qemu_log_mask 0x14]) :=
  ⟨by decide, (bad_offset_spec st_received 0x14 0xFF 4 0x5A (by decide)).1,
    (bad_offset_spec st_received 0x14 0xFF 4 0x5A (by decide)).2.1⟩

/-! ## Which writes decide the transfer permission -/

theorem write_cr1_eq (s : G233SPIState) (c sz r : Nat) :
    g233_spi_write s G233_SPI_CR1 c sz r =
      ({ s with cr1 := c % 2 ^ 32, spe := c.testBit 6, mstr := c.testBit 2 }, []) := by
  unfold g233_spi_write
  simp only [G233_SPI_CR1, G233_SPI_CR1_SPE, G233_SPI_CR1_MSTR,
    and_mask_u32 c 6 (by decide), and_mask_u32 c 2 (by decide)]
  simp

theorem run_append (a b : List Op) :
    ∀ s : G233SPIState, run s (a ++ b) =
      ((run (run s a).1 b).1, (run s a).2 ++ (run (run s a).1 b).2) := by
  induction a with
  | nil => intro s; rfl
  | cons op a ih =>
    intro s
    show ((run (step s op).1 (a ++ b)).1, (step s op).2 ++ (run (step s op).1 (a ++ b)).2) = _
    rw [ih]
    show _ = ((run (run (step s op).1 a).1 b).1,
      ((step s op).2 ++ (run (step s op).1 a).2) ++ (run (run (step s op).1 a).1 b).2)
    rw [List.append_assoc]

theorem read_selection (s : G233SPIState) (addr sz : Nat) :
    selection (g233_spi_read s addr sz).2.1 = selection s := by
  unfold g233_spi_read
  split
  · rfl
  · split
    · rfl
    · split
      · rfl
      · split
        · rfl
        · split <;> rfl

theorem write_selection (s : G233SPIState) (addr v sz r : Nat)
    (h1 : addr ≠ G233_SPI_CR1) (h2 : addr ≠ G233_SPI_CSCTRL) :
    selection (g233_spi_write s addr v sz r).1 = selection s := by
  by_cases hd : addr = G233_SPI_DR
  · subst hd
    by_cases hp : transfer_permitted s
    · rw [write_dr_permitted s v sz r hp, do_transfer_fields]; rfl
    · rw [write_dr_refused s v sz r hp]; rfl
  · unfold g233_spi_write
    simp only [if_neg h1, if_neg h2, if_neg hd]
    split
    · rfl
    · split <;> rfl

theorem step_selection (s : G233SPIState) (op : Op) (h : keeps_selection op = true) :
    selection (step s op).1 = selection s := by
  cases op with
  | read addr sz => exact read_selection s addr sz
  | write addr v sz r =>
    have h' : (addr != G233_SPI_CR1 && addr != G233_SPI_CSCTRL) = true := h
    simp only [Bool.and_eq_true, bne_iff_ne, ne_eq] at h'
    exact write_selection s addr v sz r h'.1 h'.2
  | reset => exact absurd h (by decide)

theorem run_selection (ops : List Op) :
    ∀ s : G233SPIState, (∀ op ∈ ops, keeps_selection op = true) →
      selection (run s ops).1 = selection s := by
  induction ops with
  | nil => intro s _; rfl
  | cons op ops ih =>
    intro s h
    show selection (run (step s op).1 ops).1 = _
    rw [ih _ (fun o ho => h o (List.mem_cons_of_mem _ ho)),
      step_selection s op (h op (List.mem_cons_self _ _))]

theorem permitted_of_selection (s : G233SPIState) (c k : Nat)
    (h : selection s =
      (c.testBit 6, c.testBit 2, k.testBit 0, k.testBit 4, k.testBit 1, k.testBit 5)) :
    transfer_permitted s ↔ selects c k := by
  unfold selection at h
  simp only [Prod.mk.injEq] at h
  obtain ⟨a1, a2, a3, a4, a5, a6⟩ := h
  unfold transfer_permitted selects
  rw [a1, a2, a3, a4, a5, a6]

theorem selection_write_cr1 (t : G233SPIState) (c sz r : Nat) :
    selection (g233_spi_write t G233_SPI_CR1 c sz r).1 =
      (c.testBit 6, c.testBit 2, t.cs0_en, t.cs0_act, t.cs1_en, t.cs1_act) := by
  rw [write_cr1_eq]; rfl

theorem selection_write_csctrl (t : G233SPIState) (k sz r : Nat) :
    selection (g233_spi_write t G233_SPI_CSCTRL k sz r).1 =
      (t.spe, t.mstr, k.testBit 0, k.testBit 4, k.testBit 1, k.testBit 5) := by
  rw [write_csctrl_eq]; rfl

theorem selection_after_writes (s : G233SPIState) (c k sz1 r1 sz2 r2 : Nat)
    (mid1 mid2 : List Op)
    (h1 : ∀ op ∈ mid1, keeps_selection op = true)
    (h2 : ∀ op ∈ mid2, keeps_selection op = true) (ops : List Op)
    (hops : ops = Op.write G233_SPI_CR1 c sz1 r1 ::
          (mid1 ++ Op.write G233_SPI_CSCTRL k sz2 r2 :: mid2) ∨
        ops = Op.write G233_SPI_CSCTRL k sz2 r2 ::
          (mid1 ++ Op.write G233_SPI_CR1 c sz1 r1 :: mid2)) :
    selection (run s ops).1 =
      (c.testBit 6, c.testBit 2, k.testBit 0, k.testBit 4, k.testBit 1, k.testBit 5) := by
  rcases hops with rfl | rfl
  · show selection (run (g233_spi_write s G233_SPI_CR1 c sz1 r1).1
      (mid1 ++ Op.write G233_SPI_CSCTRL k sz2 r2 :: mid2)).1 = _
    rw [run_append]
    show selection (run (g233_spi_write (run (g233_spi_write s G233_SPI_CR1 c sz1 r1).1
      mid1).1 G233_SPI_CSCTRL k sz2 r2).1 mid2).1 = _
    rw [run_selection mid2 _ h2, selection_write_csctrl]
    have e := run_selection mid1 (g233_spi_write s G233_SPI_CR1 c sz1 r1).1 h1
    rw [selection_write_cr1] at e
    unfold selection at e
    simp only [Prod.mk.injEq] at e
    rw [e.1, e.2.1]
  · show selection (run (g233_spi_write s G233_SPI_CSCTRL k sz2 r2).1
      (mid1 ++ Op.write G233_SPI_CR1 c sz1 r1 :: mid2)).1 = _
    rw [run_append]
    show selection (run (g233_spi_write (run (g233_spi_write s G233_SPI_CSCTRL k sz2 r2).1
      mid1).1 G233_SPI_CR1 c sz1 r1).1 mid2).1 = _
    rw [run_selection mid2 _ h2, selection_write_cr1]
    have e := run_selection mid1 (g233_spi_write s G233_SPI_CSCTRL k sz2 r2).1 h1
    rw [selection_write_csctrl] at e
    unfold selection at e
    simp only [Prod.mk.injEq] at e
    rw [e.2.2.1, e.2.2.2.1, e.2.2.2.2.1, e.2.2.2.2.2]

theorem reset_eq (s : G233SPIState) :
    g233_spi_reset s =
      ({ cr1 := 0, cr2 := 0, sr := 0x02, dr := s.dr, csctrl := s.csctrl, rx_data := 0,
         spe := false, mstr := false, cs0_en := false, cs0_act := false,
         cs1_en := false, cs1_act := false },
       [Event.qemu_set_irq 0 1, Event.qemu_set_irq 1 1, Event.qemu_set_irq 2 0]) := by
  simp [g233_spi_reset, g233_spi_update_cs, g233_spi_update_irq, G233_SPI_SR_TXE]

theorem do_transfer_from_txe (s : G233SPIState) (tx rx : Nat) (h : s.sr = 0x02) :
    g233_spi_do_transfer s tx rx =
      ({ s with sr := 0x03, rx_data := rx % 256 },
        [Event.ssi_transfer tx,
          Event.qemu_set_irq 2 (if irq_condition s.cr2 0x03 then 1 else 0)]) := by
  have e1 : ((((2 &&& not32 G233_SPI_SR_TXE) ||| G233_SPI_SR_BSY) &&& G233_SPI_SR_RXNE)
      != 0) = false := by decide
  have e2 : ((((2 &&& not32 G233_SPI_SR_TXE) ||| G233_SPI_SR_BSY) ||| G233_SPI_SR_RXNE)
      ||| G233_SPI_SR_TXE) &&& not32 G233_SPI_SR_BSY = 3 := by decide
  unfold g233_spi_do_transfer
  simp only [h, e1, e2, update_irq_eq]
  simp
  exact ⟨e2, by rw [e2]⟩

/-- C9: from the state produced by reset, writing Control1 = `0x44`, ChipSelectControl =
`0x11` and then Data = `b` (a byte), with a bus exchange that returns `r`, sends exactly
the byte `b`, exactly once, and gives status `0x03` (RXNE and TXE, BSY clear),
`rx_data` the byte received (`r` itself when `r` is a byte), chip-select line 0 at level
0 and line 1 at level 1; a Data Register read then returns that byte. -/
theorem scenario_spec (s0 : G233SPIState) (b r sz : Nat) (hb : b < 256) :
    bus_calls (run s0 (scenario b r)).2 = [b] ∧
      (run s0 (scenario b r)).1.sr = 0x03 ∧
      RXNE (run s0 (scenario b r)).1 = true ∧ TXE (run s0 (scenario b r)).1 = true ∧
      BSY (run s0 (scenario b r)).1 = false ∧
      (run s0 (scenario b r)).1.rx_data = r % 256 ∧
      (∀ old, line_level 0 old (run s0 (scenario b r)).2 = 0) ∧
      (∀ old, line_level 1 old (run s0 (scenario b r)).2 = 1) ∧
      (g233_spi_read (run s0 (scenario b r)).1 G233_SPI_DR sz).1 = r % 256 ∧
      (r < 256 → (run s0 (scenario b r)).1.rx_data = r ∧
        (g233_spi_read (run s0 (scenario b r)).1 G233_SPI_DR sz).1 = r) := by
  have hb' : b % 256 = b := Nat.mod_eq_of_lt hb
  have hrun : run s0 (scenario b r) =
      ({ cr1 := 0x44, cr2 := 0, sr := 0x03, dr := b, csctrl := 0x11, rx_data := r % 256,
         spe := true, mstr := true, cs0_en := true, cs0_act := true,
         cs1_en := false, cs1_act := false },
        [Event.qemu_set_irq 0 1, Event.qemu_set_irq 1 1, Event.qemu_set_irq 2 0,
         Event.qemu_set_irq 0 0, Event.qemu_set_irq 1 1,
         Event.ssi_transfer b, Event.qemu_set_irq 2 0]) := by
    have hp : transfer_permitted
        ({ cr1 := 0x44, cr2 := 0, sr := 0x02, dr := s0.dr, csctrl := 0x11, rx_data := 0,
           spe := true, mstr := true, cs0_en := true, cs0_act := true,
           cs1_en := false, cs1_act := false } : G233SPIState) :=
      ⟨rfl, rfl, Or.inl ⟨rfl, rfl⟩⟩
    have t1 : Nat.testBit 0x44 6 = true := by decide
    have t2 : Nat.testBit 0x44 2 = true := by decide
    have t3 : Nat.testBit 0x11 0 = true := by decide
    have t4 : Nat.testBit 0x11 4 = true := by decide
    have t5 : Nat.testBit 0x11 1 = false := by decide
    have t6 : Nat.testBit 0x11 5 = false := by decide
    have t7 : irq_condition 0 3 = false := by decide
    have m1 : 0x44 % 2 ^ 32 = 0x44 := by decide
    have m2 : 0x11 % 2 ^ 32 = 0x11 := by decide
    simp only [scenario, run, step, reset_eq, write_cr1_eq, write_csctrl_eq, t1, t2, t3, t4,
      t5, t6, m1, m2]
    rw [write_dr_permitted _ b 4 r hp, do_transfer_from_txe _ _ _ rfl, hb']
    simp [t7]
  rw [hrun, read_dr_eq]
  refine ⟨rfl, rfl, ?_, ?_, ?_, rfl, fun _ => rfl, fun _ => rfl, rfl, ?_⟩
  · show Nat.testBit 3 0 = true; decide
  · show Nat.testBit 3 1 = true; decide
  · show Nat.testBit 3 7 = false; decide
  · intro hr
    exact ⟨Nat.mod_eq_of_lt hr, Nat.mod_eq_of_lt hr⟩

theorem scenario_spec_witness :
    (0xAB : Nat) < 256 ∧
      bus_calls (run st_received (scenario 0xAB 0x5A)).2 = [0xAB] ∧
      (run st_received (scenario 0xAB 0x5A)).1.sr = 0x03 ∧
      (run st_received (scenario 0xAB 0x5A)).1.rx_data = 0x5A ∧
      (g233_spi_read (run st_received (scenario 0xAB 0x5A)).1 G233_SPI_DR 4).1 = 0x5A :=
  ⟨by decide, (scenario_spec st_received 0xAB 0x5A 4 (by decide)).1,
    (scenario_spec st_received 0xAB 0x5A 4 (by decide)).2.1,
    ((scenario_spec st_received 0xAB 0x5A 4 (by decide)).2.2.2.2.2.2.2.2.2 (by decide)).1,
    ((scenario_spec st_received 0xAB 0x5A 4 (by decide)).2.2.2.2.2.2.2.2.2 (by decide)).2⟩

/-! ## Reset -/

/-- C1: from every prior state, `g233_spi_reset` gives `cr1 = 0`, `cr2 = 0`, status exactly
the TXE bit (`0x02`; RXNE, UDR, OVR, BSY clear), `rx_data = 0` and all six decoded flags
false; it drives chip-select lines 0 and 1 to level 1 and the interrupt line to level 0;
`dr` and `csctrl` keep their old values. -/
theorem reset_spec (s : G233SPIState) :
    (g233_spi_reset s).1 =
        { cr1 := 0, cr2 := 0, sr := 0x02, dr := s.dr, csctrl := s.csctrl, rx_data := 0,
          spe := false, mstr := false, cs0_en := false, cs0_act := false,
          cs1_en := false, cs1_act := false } ∧
      RXNE (g233_spi_reset s).1 = false ∧ TXE (g233_spi_reset s).1 = true ∧
      UDR (g233_spi_reset s).1 = false ∧ OVR (g233_spi_reset s).1 = false ∧
      BSY (g233_spi_reset s).1 = false ∧
      (g233_spi_reset s).2 =
        [Event.qemu_set_irq 0 1, Event.qemu_set_irq 1 1, Event.qemu_set_irq 2 0] ∧
      (∀ old, line_level 0 old (g233_spi_reset s).2 = 1) ∧
      (∀ old, line_level 1 old (g233_spi_reset s).2 = 1) ∧
      (∀ old, line_level 2 old (g233_spi_reset s).2 = 0) ∧
      bus_calls (g233_spi_reset s).2 = [] := by
  rw [reset_eq]
  refine ⟨rfl, ?_, ?_, ?_, ?_, ?_, rfl, fun _ => rfl, fun _ => rfl, fun _ => rfl, rfl⟩
  · show Nat.testBit 2 0 = false; decide
  · show Nat.testBit 2 1 = true; decide
  · show Nat.testBit 2 2 = false; decide
  · show Nat.testBit 2 3 = false; decide
  · show Nat.testBit 2 7 = false; decide

/-! ## Plain register reads and writes -/

theorem read_cr1_eq (s : G233SPIState) (sz : Nat) :
    g233_spi_read s G233_SPI_CR1 sz = (s.cr1, s, []) := by
  unfold g233_spi_read
  simp only [G233_SPI_CR1]
  simp

theorem read_cr2_eq (s : G233SPIState) (sz : Nat) :
    g233_spi_read s G233_SPI_CR2 sz = (s.cr2, s, []) := by
  unfold g233_spi_read
  simp only [G233_SPI_CR1, G233_SPI_CR2]
  simp

theorem read_sr_eq (s : G233SPIState) (sz : Nat) :
    g233_spi_read s G233_SPI_SR sz = (s.sr, s, []) := by
  unfold g233_spi_read
  simp only [G233_SPI_CR1, G233_SPI_CR2, G233_SPI_SR]
  simp

theorem read_csctrl_eq (s : G233SPIState) (sz : Nat) :
    g233_spi_read s G233_SPI_CSCTRL sz = (s.csctrl, s, []) := by
  unfold g233_spi_read
  simp only [G233_SPI_CR1, G233_SPI_CR2, G233_SPI_SR, G233_SPI_DR, G233_SPI_CSCTRL]
  simp

theorem write_sr_eq (s : G233SPIState) (v sz r : Nat) :
    g233_spi_write s G233_SPI_SR v sz r = (s, []) := by
  unfold g233_spi_write
  simp only [G233_SPI_CR1, G233_SPI_CR2, G233_SPI_SR]
  simp

/-- C11: a read of Control Register 1, Control Register 2, the Status Register or the
Chip-Select Control Register returns the stored `cr1`, `cr2`, `sr`, `csctrl`, leaves the
whole state as it is (the status is not cleared on read) and makes no call: no output line
is driven and no bus exchange is made. -/
theorem plain_reads_spec (s : G233SPIState) (sz : Nat) :
    g233_spi_read s G233_SPI_CR1 sz = (s.cr1, s, []) ∧
      g233_spi_read s G233_SPI_CR2 sz = (s.cr2, s, []) ∧
      g233_spi_read s G233_SPI_SR sz = (s.sr, s, []) ∧
      g233_spi_read s G233_SPI_CSCTRL sz = (s.csctrl, s, []) ∧
      (∀ addr, addr = 0x00 ∨ addr = 0x04 ∨ addr = 0x08 ∨ addr = 0x10 →
        (g233_spi_read s addr sz).2.1 = s ∧
        bus_calls (g233_spi_read s addr sz).2.2 = [] ∧
        (∀ line old, line_level line old (g233_spi_read s addr sz).2.2 = old ∧
          driven line (g233_spi_read s addr sz).2.2 = [])) := by
  refine ⟨read_cr1_eq s sz, read_cr2_eq s sz, read_sr_eq s sz, read_csctrl_eq s sz, ?_⟩
  intro addr h
  rcases h with rfl | rfl | rfl | rfl
  · rw [show (0x00 : Nat) = G233_SPI_CR1 from rfl, read_cr1_eq]
    exact ⟨rfl, rfl, fun _ _ => ⟨rfl, rfl⟩⟩
  · rw [show (0x04 : Nat) = G233_SPI_CR2 from rfl, read_cr2_eq]
    exact ⟨rfl, rfl, fun _ _ => ⟨rfl, rfl⟩⟩
  · rw [show (0x08 : Nat) = G233_SPI_SR from rfl, read_sr_eq]
    exact ⟨rfl, rfl, fun _ _ => ⟨rfl, rfl⟩⟩
  · rw [show (0x10 : Nat) = G233_SPI_CSCTRL from rfl, read_csctrl_eq]
    exact ⟨rfl, rfl, fun _ _ => ⟨rfl, rfl⟩⟩

theorem plain_reads_spec_witness :
    ((0x08 : Nat) = 0x00 ∨ (0x08 : Nat) = 0x04 ∨ (0x08 : Nat) = 0x08 ∨ (0x08 : Nat) = 0x10) ∧
      g233_spi_read st_overrun G233_SPI_SR 4 = (0x0B, st_overrun, []) ∧
      (g233_spi_read st_overrun 0x08 4).2.1 = st_overrun :=
  ⟨by decide, (plain_reads_spec st_overrun 4).2.2.1,
    ((plain_reads_spec st_overrun 4).2.2.2.2 0x08 (by decide)).1⟩

/-- C13: a write of `v` to Control Register 1 stores `v mod 2^32` in `cr1`, sets `spe` to
bit 6 and `mstr` to bit 2 of `v`, and does nothing else: `sr`, `cr2`, `dr`, `rx_data`,
`csctrl` and the chip-select flags are unchanged and no call is made, so no bus exchange
happens (even when the write makes a transfer permitted) and no line is driven. -/
theorem cr1_write_spec (s : G233SPIState) (v sz r : Nat) :
    g233_spi_write s G233_SPI_CR1 v sz r =
        ({ s with cr1 := v % 2 ^ 32, spe := v.testBit 6, mstr := v.testBit 2 }, []) ∧
      (g233_spi_write s G233_SPI_CR1 v sz r).1.sr = s.sr ∧
      bus_calls (g233_spi_write s G233_SPI_CR1 v sz r).2 = [] ∧
      (∀ line old, line_level line old (g233_spi_write s G233_SPI_CR1 v sz r).2 = old ∧
        driven line (g233_spi_write s G233_SPI_CR1 v sz r).2 = []) ∧
      (transfer_permitted (g233_spi_write s G233_SPI_CR1 v sz r).1 →
        (g233_spi_write s G233_SPI_CR1 v sz r).2 = []) := by
  rw [write_cr1_eq]
  exact ⟨rfl, rfl, rfl, fun _ _ => ⟨rfl, rfl⟩, fun _ => rfl⟩

theorem cr1_write_spec_witness :
    transfer_permitted (g233_spi_write { st_selected with spe := false, mstr := false }
        G233_SPI_CR1 0x44 4 0x5A).1 ∧
      (g233_spi_write { st_selected with spe := false, mstr := false }
        G233_SPI_CR1 0x44 4 0x5A).2 = [] :=
  ⟨by decide,
    (cr1_write_spec { st_selected with spe := false, mstr := false } 0x44 4 0x5A).2.2.2.2
      (by decide)⟩

/-- C14: a write to the Status Register is a no-op: the state, status included, is
returned as it was and no call is made, so no line is driven and no bus exchange is made. -/
theorem sr_write_spec (s : G233SPIState) (v sz r : Nat) :
    g233_spi_write s G233_SPI_SR v sz r = (s, []) ∧
      g233_spi_write s 0x08 v sz r = (s, []) ∧
      (g233_spi_write s G233_SPI_SR v sz r).1.sr = s.sr ∧
      bus_calls (g233_spi_write s G233_SPI_SR v sz r).2 = [] ∧
      (∀ line old, line_level line old (g233_spi_write s G233_SPI_SR v sz r).2 = old ∧
        driven line (g233_spi_write s G233_SPI_SR v sz r).2 = []) := by
  have h : g233_spi_write s 0x08 v sz r = (s, []) := write_sr_eq s v sz r
  rw [write_sr_eq]
  exact ⟨rfl, h, rfl, rfl, fun _ _ => ⟨rfl, rfl⟩⟩

/-- C15: for Control Register 1, Control Register 2 and the Chip-Select Control Register,
a write of `v` followed at once by a read of the same register returns `v mod 2^32`,
which is `v` itself for every 32-bit `v`. -/
theorem write_read_roundtrip (s : G233SPIState) (v sz sz2 r : Nat) :
    (g233_spi_read (g233_spi_write s G233_SPI_CR1 v sz r).1 G233_SPI_CR1 sz2).1 = v % 2 ^ 32 ∧
      (g233_spi_read (g233_spi_write s G233_SPI_CR2 v sz r).1 G233_SPI_CR2 sz2).1
        = v % 2 ^ 32 ∧
      (g233_spi_read (g233_spi_write s G233_SPI_CSCTRL v sz r).1 G233_SPI_CSCTRL sz2).1
        = v % 2 ^ 32 ∧
      (v < 2 ^ 32 →
        (g233_spi_read (g233_spi_write s G233_SPI_CR1 v sz r).1 G233_SPI_CR1 sz2).1 = v ∧
        (g233_spi_read (g233_spi_write s G233_SPI_CR2 v sz r).1 G233_SPI_CR2 sz2).1 = v ∧
        (g233_spi_read (g233_spi_write s G233_SPI_CSCTRL v sz r).1 G233_SPI_CSCTRL sz2).1
          = v) := by
  rw [read_cr1_eq, read_cr2_eq, read_csctrl_eq, write_cr1_eq, write_cr2_eq, write_csctrl_eq]
  refine ⟨rfl, rfl, rfl, fun hv => ?_⟩
  have e : v % 2 ^ 32 = v := Nat.mod_eq_of_lt hv
  exact ⟨e, e, e⟩

theorem write_read_roundtrip_witness :
    (0xDEADBEEF : Nat) < 2 ^ 32 ∧
      (g233_spi_read (g233_spi_write st_zero G233_SPI_CR1 0xDEADBEEF 4 0).1 G233_SPI_CR1 4).1
        = 0xDEADBEEF ∧
      (g233_spi_read (g233_spi_write st_zero G233_SPI_CR2 0xDEADBEEF 4 0).1 G233_SPI_CR2 4).1
        = 0xDEADBEEF ∧
      (g233_spi_read (g233_spi_write st_zero G233_SPI_CSCTRL 0xDEADBEEF 4 0).1
        G233_SPI_CSCTRL 4).1 = 0xDEADBEEF :=
  ⟨by decide, (write_read_roundtrip st_zero 0xDEADBEEF 4 4 0).2.2.2 (by decide)⟩

/-! ## Reachable status values -/

theorem do_transfer_sr_of (s : G233SPIState) (tx rx x : Nat) (h : s.sr = x) :
    (g233_spi_do_transfer s tx rx).1.sr =
      (g233_spi_do_transfer { st_zero with sr := x } 0 0).1.sr := by
  subst h
  unfold g233_spi_do_transfer
  dsimp only
  split <;> rfl

theorem do_transfer_sr_reachable (s : G233SPIState) (tx rx : Nat) (h : sr_reachable s.sr) :
    sr_reachable (g233_spi_do_transfer s tx rx).1.sr := by
  rcases h with h | h | h
  · rw [do_transfer_sr_of s tx rx _ h]; decide
  · rw [do_transfer_sr_of s tx rx _ h]; decide
  · rw [do_transfer_sr_of s tx rx _ h]; decide

theorem read_sr_reachable (s : G233SPIState) (addr sz : Nat) (h : sr_reachable s.sr) :
    sr_reachable (g233_spi_read s addr sz).2.1.sr := by
  by_cases hd : addr = G233_SPI_DR
  · subst hd
    rw [read_dr_eq]
    show sr_reachable (s.sr &&& not32 G233_SPI_SR_RXNE &&& not32 G233_SPI_SR_OVR)
    rcases h with h | h | h <;> rw [h] <;> decide
  · have e : (g233_spi_read s addr sz).2.1 = s := by
      unfold g233_spi_read
      simp only [if_neg hd]
      split
      · rfl
      · split
        · rfl
        · split
          · rfl
          · split <;> rfl
    rw [e]; exact h

theorem write_sr_unchanged (s : G233SPIState) (addr v sz r : Nat) (hd : addr ≠ G233_SPI_DR) :
    (g233_spi_write s addr v sz r).1.sr = s.sr := by
  unfold g233_spi_write
  simp only [if_neg hd]
  split
  · rfl
  · split
    · rfl
    · split
      · rfl
      · split <;> rfl

theorem write_sr_reachable (s : G233SPIState) (addr v sz r : Nat) (h : sr_reachable s.sr) :
    sr_reachable (g233_spi_write s addr v sz r).1.sr := by
  by_cases hd : addr = G233_SPI_DR
  · subst hd
    by_cases hp : transfer_permitted s
    · rw [write_dr_permitted s v sz r hp]
      exact do_transfer_sr_reachable _ _ _ h
    · rw [write_dr_refused s v sz r hp]; exact h
  · rw [write_sr_unchanged s addr v sz r hd]; exact h

theorem step_sr_reachable (s : G233SPIState) (op : Op) (h : sr_reachable s.sr) :
    sr_reachable (step s op).1.sr := by
  cases op with
  | read addr sz => exact read_sr_reachable s addr sz h
  | write addr v sz r => exact write_sr_reachable s addr v sz r h
  | reset =>
    show sr_reachable (g233_spi_reset s).1.sr
    rw [reset_eq]; exact Or.inl rfl

theorem run_sr_reachable (ops : List Op) :
    ∀ s : G233SPIState, sr_reachable s.sr → sr_reachable (run s ops).1.sr := by
  induction ops with
  | nil => intro s h; exact h
  | cons op ops ih => intro s h; exact ih _ (step_sr_reachable s op h)

theorem run_reset_sr_reachable (s0 : G233SPIState) (ops : List Op) :
    sr_reachable (run s0 (Op.reset :: ops)).1.sr := by
  show sr_reachable (run (g233_spi_reset s0).1 ops).1.sr
  apply run_sr_reachable
  rw [reset_eq]; exact Or.inl rfl

/-- C12: in every state reached by a sequence of register reads, register writes and
resets that begins with a reset, whatever the bus answers, BSY is 0; so TXE and BSY are
never both set when an operation returns. -/
theorem bsy_clear_between_ops (s0 : G233SPIState) (ops : List Op) :
    BSY (run s0 (Op.reset :: ops)).1 = false ∧
      ¬ (TXE (run s0 (Op.reset :: ops)).1 = true ∧ BSY (run s0 (Op.reset :: ops)).1 = true) ∧
      (∀ n, BSY (run s0 (Op.reset :: ops.take n)).1 = false) := by
  have key : ∀ l : List Op, BSY (run s0 (Op.reset :: l)).1 = false := by
    intro l
    unfold BSY
    rcases run_reset_sr_reachable s0 l with h | h | h <;> rw [h] <;> decide
  refine ⟨key ops, ?_, fun n => key _⟩
  intro h
  rw [key ops] at h
  exact Bool.noConfusion h.2

/-! ## Outputs follow the state -/

theorem line_level_append (line : Nat) (a b : List Event) :
    ∀ old, line_level line old (a ++ b) = line_level line (line_level line old a) b := by
  induction a with
  | nil => intro old; rfl
  | cons e a ih =>
    intro old
    cases e with
    | qemu_set_irq l v => exact ih _
    | ssi_transfer tx => exact ih _
    | qemu_log_mask ad => exact ih _

theorem read_other (s : G233SPIState) (addr sz : Nat) (hd : addr ≠ G233_SPI_DR) :
    (g233_spi_read s addr sz).2.1 = s ∧
      ∀ line old, line_level line old (g233_spi_read s addr sz).2.2 = old := by
  unfold g233_spi_read
  simp only [if_neg hd]
  split
  · exact ⟨rfl, fun _ _ => rfl⟩
  · split
    · exact ⟨rfl, fun _ _ => rfl⟩
    · split
      · exact ⟨rfl, fun _ _ => rfl⟩
      · split
        · exact ⟨rfl, fun _ _ => rfl⟩
        · exact ⟨rfl, fun _ _ => rfl⟩

theorem write_bad_eq (s : G233SPIState) (addr v sz r : Nat)
    (h0 : addr ≠ G233_SPI_CR1) (h4 : addr ≠ G233_SPI_CR2) (h8 : addr ≠ G233_SPI_SR)
    (hc : addr ≠ G233_SPI_DR) (h10 : addr ≠ G233_SPI_CSCTRL) :
    g233_spi_write s addr v sz r = (s, [Event.qemu_log_mask addr]) := by
  unfold g233_spi_write
  simp only [if_neg h0, if_neg h4, if_neg h8, if_neg hc, if_neg h10]

theorem read_outputs_consistent (s : G233SPIState) (addr sz l0 l1 l2 : Nat)
    (h : outputs_consistent s l0 l1 l2) :
    outputs_consistent (g233_spi_read s addr sz).2.1
      (line_level 0 l0 (g233_spi_read s addr sz).2.2)
      (line_level 1 l1 (g233_spi_read s addr sz).2.2)
      (line_level 2 l2 (g233_spi_read s addr sz).2.2) := by
  by_cases hd : addr = G233_SPI_DR
  · subst hd
    rw [read_dr_eq, update_irq_eq]
    exact ⟨h.1, h.2.1, rfl⟩
  · obtain ⟨e1, e2⟩ := read_other s addr sz hd
    rw [e2, e2, e2, e1]; exact h

theorem write_outputs_consistent (s : G233SPIState) (addr v sz r l0 l1 l2 : Nat)
    (h : outputs_consistent s l0 l1 l2) :
    outputs_consistent (g233_spi_write s addr v sz r).1
      (line_level 0 l0 (g233_spi_write s addr v sz r).2)
      (line_level 1 l1 (g233_spi_write s addr v sz r).2)
      (line_level 2 l2 (g233_spi_write s addr v sz r).2) := by
  by_cases h0 : addr = G233_SPI_CR1
  · subst h0; rw [write_cr1_eq]; exact h
  by_cases h4 : addr = G233_SPI_CR2
  · subst h4; rw [write_cr2_eq]
    refine ⟨h.1, h.2.1, ?_⟩
    show (if irq_condition v s.sr then 1 else 0) =
      (if irq_condition (v % 2 ^ 32) s.sr then 1 else 0)
    rw [irq_condition_u32]
  by_cases h8 : addr = G233_SPI_SR
  · subst h8; rw [write_sr_eq]; exact h
  by_cases hc : addr = G233_SPI_DR
  · subst hc
    by_cases hp : transfer_permitted s
    · rw [write_dr_permitted s v sz r hp, do_transfer_events, do_transfer_fields]
      exact ⟨h.1, h.2.1, rfl⟩
    · rw [write_dr_refused s v sz r hp]; exact h
  by_cases h10 : addr = G233_SPI_CSCTRL
  · subst h10; rw [write_csctrl_eq]
    exact ⟨rfl, rfl, h.2.2⟩
  · rw [write_bad_eq s addr v sz r h0 h4 h8 hc h10]; exact h

theorem reset_outputs_consistent (s : G233SPIState) (l0 l1 l2 : Nat) :
    outputs_consistent (g233_spi_reset s).1
      (line_level 0 l0 (g233_spi_reset s).2)
      (line_level 1 l1 (g233_spi_reset s).2)
      (line_level 2 l2 (g233_spi_reset s).2) := by
  rw [reset_eq]
  refine ⟨rfl, rfl, ?_⟩
  show (0 : Nat) = if irq_condition 0 2 then 1 else 0
  decide

theorem step_outputs_consistent (s : G233SPIState) (op : Op) (l0 l1 l2 : Nat)
    (h : outputs_consistent s l0 l1 l2) :
    outputs_consistent (step s op).1
      (line_level 0 l0 (step s op).2) (line_level 1 l1 (step s op).2)
      (line_level 2 l2 (step s op).2) := by
  cases op with
  | read addr sz => exact read_outputs_consistent s addr sz l0 l1 l2 h
  | write addr v sz r => exact write_outputs_consistent s addr v sz r l0 l1 l2 h
  | reset => exact reset_outputs_consistent s l0 l1 l2

theorem run_outputs_consistent (ops : List Op) :
    ∀ (s : G233SPIState) (l0 l1 l2 : Nat), outputs_consistent s l0 l1 l2 →
      outputs_consistent (run s ops).1
        (line_level 0 l0 (run s ops).2) (line_level 1 l1 (run s ops).2)
        (line_level 2 l2 (run s ops).2) := by
  induction ops with
  | nil => intro s l0 l1 l2 h; exact h
  | cons op ops ih =>
    intro s l0 l1 l2 h
    show outputs_consistent (run (step s op).1 ops).1
      (line_level 0 l0 ((step s op).2 ++ (run (step s op).1 ops).2))
      (line_level 1 l1 ((step s op).2 ++ (run (step s op).1 ops).2))
      (line_level 2 l2 ((step s op).2 ++ (run (step s op).1 ops).2))
    rw [line_level_append, line_level_append, line_level_append]
    exact ih _ _ _ _ (step_outputs_consistent s op l0 l1 l2 h)

theorem run_reset_outputs_consistent (s0 : G233SPIState) (ops : List Op) (l0 l1 l2 : Nat) :
    outputs_consistent (run s0 (Op.reset :: ops)).1
      (line_level 0 l0 (run s0 (Op.reset :: ops)).2)
      (line_level 1 l1 (run s0 (Op.reset :: ops)).2)
      (line_level 2 l2 (run s0 (Op.reset :: ops)).2) := by
  show outputs_consistent (run (g233_spi_reset s0).1 ops).1
    (line_level 0 l0 ((g233_spi_reset s0).2 ++ (run (g233_spi_reset s0).1 ops).2))
    (line_level 1 l1 ((g233_spi_reset s0).2 ++ (run (g233_spi_reset s0).1 ops).2))
    (line_level 2 l2 ((g233_spi_reset s0).2 ++ (run (g233_spi_reset s0).1 ops).2))
  rw [line_level_append, line_level_append, line_level_append]
  exact run_outputs_consistent ops _ _ _ _ (reset_outputs_consistent s0 l0 l1 l2)

/-- C18: in any sequence of register reads, register writes and resets that begins with a
reset, after every operation the level last driven on the interrupt line is 1 exactly when
(bit 7 of `cr2` and TXE) or (bit 6 and RXNE) or (bit 5 and (UDR or OVR)) holds in the
current state, else 0, and the levels last driven on chip-select lines 0 and 1 are 0
exactly when `cs0_en && cs0_act`, resp. `cs1_en && cs1_act`, hold in the current state,
else 1. The levels `l0`, `l1`, `l2` before the sequence are arbitrary. -/
theorem outputs_follow_state (s0 : G233SPIState) (ops : List Op) (l0 l1 l2 : Nat) :
    line_level 2 l2 (run s0 (Op.reset :: ops)).2 =
        (if ((run s0 (Op.reset :: ops)).1.cr2.testBit 7 && TXE (run s0 (Op.reset :: ops)).1) ||
            ((run s0 (Op.reset :: ops)).1.cr2.testBit 6 &&
              RXNE (run s0 (Op.reset :: ops)).1) ||
            ((run s0 (Op.reset :: ops)).1.cr2.testBit 5 &&
              (UDR (run s0 (Op.reset :: ops)).1 || OVR (run s0 (Op.reset :: ops)).1))
          then 1 else 0) ∧
      line_level 0 l0 (run s0 (Op.reset :: ops)).2 =
        (if (run s0 (Op.reset :: ops)).1.cs0_en && (run s0 (Op.reset :: ops)).1.cs0_act
          then 0 else 1) ∧
      line_level 1 l1 (run s0 (Op.reset :: ops)).2 =
        (if (run s0 (Op.reset :: ops)).1.cs1_en && (run s0 (Op.reset :: ops)).1.cs1_act
          then 0 else 1) ∧
      (∀ n, outputs_consistent (run s0 (Op.reset :: ops.take n)).1
        (line_level 0 l0 (run s0 (Op.reset :: ops.take n)).2)
        (line_level 1 l1 (run s0 (Op.reset :: ops.take n)).2)
        (line_level 2 l2 (run s0 (Op.reset :: ops.take n)).2)) := by
  obtain ⟨h0, h1, h2⟩ := run_reset_outputs_consistent s0 ops l0 l1 l2
  exact ⟨h2, h0, h1, fun n => run_reset_outputs_consistent s0 _ l0 l1 l2⟩

theorem scenario_run (s0 : G233SPIState) (b r : Nat) (hb : b < 256) :
    run s0 (scenario b r) =
      ({ cr1 := 0x44, cr2 := 0, sr := 0x03, dr := b, csctrl := 0x11, rx_data := r % 256,
         spe := true, mstr := true, cs0_en := true, cs0_act := true,
         cs1_en := false, cs1_act := false },
        [Event.qemu_set_irq 0 1, Event.qemu_set_irq 1 1, Event.qemu_set_irq 2 0,
         Event.qemu_set_irq 0 0, Event.qemu_set_irq 1 1,
         Event.ssi_transfer b, Event.qemu_set_irq 2 0]) := by
  have hb' : b % 256 = b := Nat.mod_eq_of_lt hb
  have hp : transfer_permitted
      ({ cr1 := 0x44, cr2 := 0, sr := 0x02, dr := s0.dr, csctrl := 0x11, rx_data := 0,
         spe := true, mstr := true, cs0_en := true, cs0_act := true,
         cs1_en := false, cs1_act := false } : G233SPIState) :=
    ⟨rfl, rfl, Or.inl ⟨rfl, rfl⟩⟩
  have t1 : Nat.testBit 0x44 6 = true := by decide
  have t2 : Nat.testBit 0x44 2 = true := by decide
  have t3 : Nat.testBit 0x11 0 = true := by decide
  have t4 : Nat.testBit 0x11 4 = true := by decide
  have t5 : Nat.testBit 0x11 1 = false := by decide
  have t6 : Nat.testBit 0x11 5 = false := by decide
  have t7 : irq_condition 0 3 = false := by decide
  have m1 : 0x44 % 2 ^ 32 = 0x44 := by decide
  have m2 : 0x11 % 2 ^ 32 = 0x11 := by decide
  simp only [scenario, run, step, reset_eq, write_cr1_eq, write_csctrl_eq, t1, t2, t3, t4,
    t5, t6, m1, m2]
  rw [write_dr_permitted _ b 4 r hp, do_transfer_from_txe _ _ _ rfl, hb']
  simp [t7]

/-- C20: in every state reached by a sequence of register reads, register writes and
resets that begins with a reset, the status is `0x02`, `0x03` or `0x0B`, and each of the
three is reached; so UDR is never set, TXE is always set (hence, whenever `cr2` has bit 7
set, the level last driven on the interrupt line is 1), and OVR is set only with RXNE. -/
theorem status_values (s0 : G233SPIState) (ops : List Op) (l2 : Nat) :
    ((run s0 (Op.reset :: ops)).1.sr = 0x02 ∨ (run s0 (Op.reset :: ops)).1.sr = 0x03 ∨
        (run s0 (Op.reset :: ops)).1.sr = 0x0B) ∧
      (run s0 [Op.reset]).1.sr = 0x02 ∧
      (run s0 (scenario 0xAB 0x5A)).1.sr = 0x03 ∧
      (run s0 (scenario 0xAB 0x5A ++ [Op.write G233_SPI_DR 0xCD 4 0x77])).1.sr = 0x0B ∧
      UDR (run s0 (Op.reset :: ops)).1 = false ∧
      TXE (run s0 (Op.reset :: ops)).1 = true ∧
      ((run s0 (Op.reset :: ops)).1.cr2.testBit 7 = true →
        line_level 2 l2 (run s0 (Op.reset :: ops)).2 = 1) ∧
      (OVR (run s0 (Op.reset :: ops)).1 = true → RXNE (run s0 (Op.reset :: ops)).1 = true) := by
  have hsr := run_reset_sr_reachable s0 ops
  have htxe : TXE (run s0 (Op.reset :: ops)).1 = true := by
    unfold TXE
    rcases hsr with h | h | h <;> rw [h] <;> decide
  refine ⟨hsr, ?_, ?_, ?_, ?_, htxe, ?_, ?_⟩
  · show (g233_spi_reset s0).1.sr = 0x02
    rw [reset_eq]
  · rw [scenario_run s0 0xAB 0x5A (by decide)]
  · rw [run_append, scenario_run s0 0xAB 0x5A (by decide)]
    decide
  · unfold UDR
    rcases hsr with h | h | h <;> rw [h] <;> decide
  · intro h7
    have hc := (run_reset_outputs_consistent s0 ops 0 0 l2).2.2
    rw [hc]
    have hi : irq_condition (run s0 (Op.reset :: ops)).1.cr2 (run s0 (Op.reset :: ops)).1.sr
        = true := by
      unfold irq_condition
      have ht : (run s0 (Op.reset :: ops)).1.sr.testBit 1 = true := htxe
      rw [h7, ht]; rfl
    rw [hi]; rfl
  · unfold OVR RXNE
    rcases hsr with h | h | h <;> rw [h] <;> decide

theorem status_values_witness :
    (run st_zero (Op.reset :: [Op.write G233_SPI_CR2 0x80 4 0])).1.cr2.testBit 7 = true ∧
      line_level 2 0 (run st_zero (Op.reset :: [Op.write G233_SPI_CR2 0x80 4 0])).2 = 1 ∧
      OVR (run st_zero (Op.reset :: ((scenario 0xAB 0x5A).tail ++
        [Op.write G233_SPI_DR 0xCD 4 0x77]))).1 = true ∧
      RXNE (run st_zero (Op.reset :: ((scenario 0xAB 0x5A).tail ++
        [Op.write G233_SPI_DR 0xCD 4 0x77]))).1 = true :=
  ⟨by decide,
    (status_values st_zero [Op.write G233_SPI_CR2 0x80 4 0] 0).2.2.2.2.2.2.1 (by decide),
    by decide,
    (status_values st_zero ((scenario 0xAB 0x5A).tail ++ [Op.write G233_SPI_DR 0xCD 4 0x77])
      0).2.2.2.2.2.2.2 (by decide)⟩

/-! ## What clears OVR and UDR -/

/-- C16, as stated, fails at reset: from a state with OVR set, a reset (which is not a
Data Register read) leaves OVR clear. -/
theorem ovr_reset_counterexample :
    OVR st_overrun = true ∧ OVR (step st_overrun Op.reset).1 = false ∧
      (g233_spi_reset st_overrun).1.sr = 0x02 := by
  decide

/-- C16, amended: from a state with OVR set, every register write (any offset, value and
bus response) and every read at an offset other than the Data Register leaves OVR set;
a reset, like a Data Register read, leaves OVR clear. -/
theorem ovr_sticky (s : G233SPIState) (op : Op) (h : OVR s = true)
    (hr : op ≠ Op.reset) (hd : ∀ sz, op ≠ Op.read G233_SPI_DR sz) :
    OVR (step s op).1 = true ∧ OVR (g233_spi_reset s).1 = false ∧
      (∀ sz, OVR (g233_spi_read s G233_SPI_DR sz).2.1 = false) := by
  have h3 : s.sr.testBit 3 = true := h
  refine ⟨?_, ?_, ?_⟩
  · cases op with
    | read addr sz =>
      have ha : addr ≠ G233_SPI_DR := fun e => hd sz (by rw [e])
      show OVR (g233_spi_read s addr sz).2.1 = true
      rw [(read_other s addr sz ha).1]; exact h
    | write addr v sz r =>
      show OVR (g233_spi_write s addr v sz r).1 = true
      by_cases ha : addr = G233_SPI_DR
      · subst ha
        by_cases hp : transfer_permitted s
        · rw [write_dr_permitted s v sz r hp]
          unfold OVR
          rw [do_transfer_sr_testBit _ _ _ _ (by decide)]
          show (false || false || (true && s.sr.testBit 0) || (true && s.sr.testBit 3)) = true
          rw [h3]; simp
        · rw [write_dr_refused s v sz r hp]; exact h
      · unfold OVR
        rw [write_sr_unchanged s addr v sz r ha]; exact h3
    | reset => exact absurd rfl hr
  · rw [reset_eq]
    show Nat.testBit 2 3 = false
    decide
  · intro sz
    unfold OVR
    rw [read_dr_sr_testBit]
    simp

theorem ovr_sticky_witness :
    OVR st_overrun = true ∧ Op.write G233_SPI_DR 0xCD 4 0x77 ≠ Op.reset ∧
      (∀ sz, Op.write G233_SPI_DR 0xCD 4 0x77 ≠ Op.read G233_SPI_DR sz) ∧
      OVR (step st_overrun (Op.write G233_SPI_DR 0xCD 4 0x77)).1 = true :=
  ⟨by decide, by decide, fun _ h => Op.noConfusion h,
    (ovr_sticky st_overrun (Op.write G233_SPI_DR 0xCD 4 0x77) (by decide) (by decide)
      (fun _ h => Op.noConfusion h)).1⟩

/-- C17, as stated, fails: from a state whose status has UDR set, a Data Register read
leaves UDR set. -/
theorem udr_read_counterexample :
    UDR st_udr = true ∧ UDR (g233_spi_read st_udr G233_SPI_DR 4).2.1 = true ∧
      (g233_spi_read st_udr G233_SPI_DR 4).2.1.sr = 0x06 := by
  decide

/-- C17, amended: a Data Register read leaves the UDR bit of the status as it was; the
bits it clears are RXNE and OVR. -/
theorem udr_kept_by_data_read (s : G233SPIState) (sz : Nat) :
    UDR (g233_spi_read s G233_SPI_DR sz).2.1 = UDR s ∧
      RXNE (g233_spi_read s G233_SPI_DR sz).2.1 = false ∧
      OVR (g233_spi_read s G233_SPI_DR sz).2.1 = false := by
  refine ⟨?_, ?_, ?_⟩
  · unfold UDR
    rw [read_dr_sr_testBit]
    simp
  · unfold RXNE
    rw [read_dr_sr_testBit]
    simp
  · unfold OVR
    rw [read_dr_sr_testBit]
    simp

/-! ## Raw and decoded chip-select state across a reset -/

/-- C19, as stated, fails at reset, ChipSelectControl = `0x11`, reset on a zero-initialised
controller: the second reset clears the decoded flags and drives both chip-select lines to
level 1, but leaves `csctrl = 0x11`, so a ChipSelectControl read returns `0x11` while
`cs0_en` and `cs0_act` are false. -/
theorem csctrl_stale_after_reset :
    (run st_zero [Op.reset, Op.write G233_SPI_CSCTRL 0x11 4 0, Op.reset]).1.csctrl = 0x11 ∧
      (run st_zero [Op.reset, Op.write G233_SPI_CSCTRL 0x11 4 0, Op.reset]).1.cs0_en = false ∧
      (run st_zero [Op.reset, Op.write G233_SPI_CSCTRL 0x11 4 0, Op.reset]).1.cs0_act
        = false ∧
      ¬ cs_decoded (run st_zero [Op.reset, Op.write G233_SPI_CSCTRL 0x11 4 0, Op.reset]).1 ∧
      (g233_spi_read (run st_zero [Op.reset, Op.write G233_SPI_CSCTRL 0x11 4 0, Op.reset]).1
        G233_SPI_CSCTRL 4).1 = 0x11 ∧
      line_level 0 0 (run st_zero [Op.reset, Op.write G233_SPI_CSCTRL 0x11 4 0, Op.reset]).2
        = 1 ∧
      cs_decoded (run st_zero [Op.reset, Op.write G233_SPI_CSCTRL 0x11 4 0]).1 ∧
      (run st_zero [Op.reset, Op.write G233_SPI_CR1 0x44 4 0, Op.reset]).1.cr1 = 0 := by
  decide

theorem read_cs_fields (s : G233SPIState) (addr sz : Nat) :
    cs_fields (g233_spi_read s addr sz).2.1 = cs_fields s := by
  unfold g233_spi_read
  split
  · rfl
  · split
    · rfl
    · split
      · rfl
      · split
        · rfl
        · split <;> rfl

theorem write_cs_fields (s : G233SPIState) (addr v sz r : Nat)
    (h : addr ≠ G233_SPI_CSCTRL) :
    cs_fields (g233_spi_write s addr v sz r).1 = cs_fields s := by
  by_cases hd : addr = G233_SPI_DR
  · subst hd
    by_cases hp : transfer_permitted s
    · rw [write_dr_permitted s v sz r hp, do_transfer_fields]; rfl
    · rw [write_dr_refused s v sz r hp]; rfl
  · unfold g233_spi_write
    simp only [if_neg hd, if_neg h]
    split
    · rfl
    · split
      · rfl
      · split <;> rfl

theorem cs_decoded_of_fields (a b : G233SPIState) (h : cs_fields a = cs_fields b) :
    cs_decoded b → cs_decoded a := by
  unfold cs_fields at h
  simp only [Prod.mk.injEq] at h
  obtain ⟨e0, e1, e2, e3, e4⟩ := h
  unfold cs_decoded
  rw [e0, e1, e2, e3, e4]
  exact id

theorem flags_off_of_fields (a b : G233SPIState) (h : cs_fields a = cs_fields b) :
    (b.cs0_en = false ∧ b.cs1_en = false ∧ b.cs0_act = false ∧ b.cs1_act = false) →
      (a.cs0_en = false ∧ a.cs1_en = false ∧ a.cs0_act = false ∧ a.cs1_act = false) := by
  unfold cs_fields at h
  simp only [Prod.mk.injEq] at h
  obtain ⟨_, e1, e2, e3, e4⟩ := h
  rw [e1, e2, e3, e4]
  exact id

theorem write_csctrl_decoded (s : G233SPIState) (v sz r : Nat) :
    cs_decoded (g233_spi_write s G233_SPI_CSCTRL v sz r).1 := by
  rw [write_csctrl_eq]
  unfold cs_decoded
  show v.testBit 0 = (v % 2 ^ 32).testBit 0 ∧ v.testBit 1 = (v % 2 ^ 32).testBit 1 ∧
    v.testBit 4 = (v % 2 ^ 32).testBit 4 ∧ v.testBit 5 = (v % 2 ^ 32).testBit 5
  rw [testBit_u32 v 0 (by decide), testBit_u32 v 1 (by decide), testBit_u32 v 4 (by decide),
    testBit_u32 v 5 (by decide)]
  exact ⟨rfl, rfl, rfl, rfl⟩

theorem step_cs_decoded (s : G233SPIState) (op : Op) (hr : op ≠ Op.reset)
    (h : cs_decoded s) : cs_decoded (step s op).1 := by
  cases op with
  | read addr sz => exact cs_decoded_of_fields _ _ (read_cs_fields s addr sz) h
  | write addr v sz r =>
    by_cases ha : addr = G233_SPI_CSCTRL
    · subst ha; exact write_csctrl_decoded s v sz r
    · exact cs_decoded_of_fields _ _ (write_cs_fields s addr v sz r ha) h
  | reset => exact absurd rfl hr

theorem step_cs_decoded_or_off (s : G233SPIState) (op : Op)
    (h : cs_decoded s ∨
      (s.cs0_en = false ∧ s.cs1_en = false ∧ s.cs0_act = false ∧ s.cs1_act = false)) :
    cs_decoded (step s op).1 ∨
      ((step s op).1.cs0_en = false ∧ (step s op).1.cs1_en = false ∧
        (step s op).1.cs0_act = false ∧ (step s op).1.cs1_act = false) := by
  cases op with
  | read addr sz =>
    rcases h with h | h
    · exact Or.inl (cs_decoded_of_fields _ _ (read_cs_fields s addr sz) h)
    · exact Or.inr (flags_off_of_fields _ _ (read_cs_fields s addr sz) h)
  | write addr v sz r =>
    by_cases ha : addr = G233_SPI_CSCTRL
    · subst ha; exact Or.inl (write_csctrl_decoded s v sz r)
    · rcases h with h | h
      · exact Or.inl (cs_decoded_of_fields _ _ (write_cs_fields s addr v sz r ha) h)
      · exact Or.inr (flags_off_of_fields _ _ (write_cs_fields s addr v sz r ha) h)
  | reset => exact Or.inr ⟨rfl, rfl, rfl, rfl⟩

theorem run_cs_decoded (ops : List Op) :
    ∀ s : G233SPIState, Op.reset ∉ ops → cs_decoded s → cs_decoded (run s ops).1 := by
  induction ops with
  | nil => intro s _ h; exact h
  | cons op ops ih =>
    intro s hn h
    have h1 : op ≠ Op.reset := fun e => hn (by rw [e]; exact List.mem_cons_self _ _)
    have h2 : Op.reset ∉ ops := fun e => hn (List.mem_cons_of_mem _ e)
    exact ih _ h2 (step_cs_decoded s op h1 h)

theorem run_cs_decoded_or_off (ops : List Op) :
    ∀ s : G233SPIState,
      (cs_decoded s ∨
        (s.cs0_en = false ∧ s.cs1_en = false ∧ s.cs0_act = false ∧ s.cs1_act = false)) →
      (cs_decoded (run s ops).1 ∨
        ((run s ops).1.cs0_en = false ∧ (run s ops).1.cs1_en = false ∧
          (run s ops).1.cs0_act = false ∧ (run s ops).1.cs1_act = false)) := by
  induction ops with
  | nil => intro s h; exact h
  | cons op ops ih => intro s h; exact ih _ (step_cs_decoded_or_off s op h)

/-- C19, amended: on a zero-initialised controller that is first reset, in every state
reached by register reads and register writes with no further reset, `cs0_en`, `cs1_en`,
`cs0_act`, `cs1_act` are bits 0, 1, 4, 5 of `csctrl`, so the value a ChipSelectControl
read returns gives the levels driven on the two chip-select lines. When the sequence has
further resets, every state reached either has that agreement or has all four flags
false with both lines at level 1 (a reset clears the flags and keeps `csctrl`). -/
theorem cs_decode_consistency (ops : List Op) (l0 l1 : Nat) :
    (Op.reset ∉ ops →
      cs_decoded (run st_zero (Op.reset :: ops)).1 ∧
      (g233_spi_read (run st_zero (Op.reset :: ops)).1 G233_SPI_CSCTRL 4).1 =
        (run st_zero (Op.reset :: ops)).1.csctrl ∧
      line_level 0 l0 (run st_zero (Op.reset :: ops)).2 =
        (if (run st_zero (Op.reset :: ops)).1.csctrl.testBit 0 &&
            (run st_zero (Op.reset :: ops)).1.csctrl.testBit 4 then 0 else 1) ∧
      line_level 1 l1 (run st_zero (Op.reset :: ops)).2 =
        (if (run st_zero (Op.reset :: ops)).1.csctrl.testBit 1 &&
            (run st_zero (Op.reset :: ops)).1.csctrl.testBit 5 then 0 else 1)) ∧
    (cs_decoded (run st_zero (Op.reset :: ops)).1 ∨
      ((run st_zero (Op.reset :: ops)).1.cs0_en = false ∧
        (run st_zero (Op.reset :: ops)).1.cs1_en = false ∧
        (run st_zero (Op.reset :: ops)).1.cs0_act = false ∧
        (run st_zero (Op.reset :: ops)).1.cs1_act = false ∧
        line_level 0 l0 (run st_zero (Op.reset :: ops)).2 = 1 ∧
        line_level 1 l1 (run st_zero (Op.reset :: ops)).2 = 1)) := by
  have h0 : cs_decoded (g233_spi_reset st_zero).1 := by decide
  obtain ⟨c0, c1, _⟩ := run_reset_outputs_consistent st_zero ops l0 l1 0
  constructor
  · intro hn
    have hd : cs_decoded (run st_zero (Op.reset :: ops)).1 :=
      run_cs_decoded ops (g233_spi_reset st_zero).1 hn h0
    refine ⟨hd, ?_, ?_, ?_⟩
    · rw [read_csctrl_eq]
    · rw [c0, hd.1, hd.2.2.1]
    · rw [c1, hd.2.1, hd.2.2.2]
  · have h : cs_decoded (run st_zero (Op.reset :: ops)).1 ∨
        ((run st_zero (Op.reset :: ops)).1.cs0_en = false ∧
          (run st_zero (Op.reset :: ops)).1.cs1_en = false ∧
          (run st_zero (Op.reset :: ops)).1.cs0_act = false ∧
          (run st_zero (Op.reset :: ops)).1.cs1_act = false) :=
      run_cs_decoded_or_off ops (g233_spi_reset st_zero).1 (Or.inl h0)
    rcases h with h | ⟨f0, f1, f2, f3⟩
    · exact Or.inl h
    · refine Or.inr ⟨f0, f1, f2, f3, ?_, ?_⟩
      · rw [c0, f0]; rfl
      · rw [c1, f1]; rfl

theorem cs_decode_consistency_witness :
    Op.reset ∉ [Op.write G233_SPI_CSCTRL 0x11 4 0, Op.read G233_SPI_DR 4] ∧
      cs_decoded (run st_zero
        (Op.reset :: [Op.write G233_SPI_CSCTRL 0x11 4 0, Op.read G233_SPI_DR 4])).1 ∧
      (g233_spi_read (run st_zero
        (Op.reset :: [Op.write G233_SPI_CSCTRL 0x11 4 0, Op.read G233_SPI_DR 4])).1
        G233_SPI_CSCTRL 4).1 = 0x11 ∧
      line_level 0 1 (run st_zero
        (Op.reset :: [Op.write G233_SPI_CSCTRL 0x11 4 0, Op.read G233_SPI_DR 4])).2 = 0 :=
  ⟨by decide,
    ((cs_decode_consistency [Op.write G233_SPI_CSCTRL 0x11 4 0, Op.read G233_SPI_DR 4] 1 1).1
      (by decide)).1,
    ((cs_decode_consistency [Op.write G233_SPI_CSCTRL 0x11 4 0, Op.read G233_SPI_DR 4] 1 1).1
      (by decide)).2.1,
    ((cs_decode_consistency [Op.write G233_SPI_CSCTRL 0x11 4 0, Op.read G233_SPI_DR 4] 1 1).1
      (by decide)).2.2.1⟩

end G233
